import Mathlib

/-!
The blobserver registry (`pkg/blobserver/registry.go`).

A shallow embedding of the constructor registry of package `blobserver`:
the package variables `mapLock`, `storageConstructors` and
`handlerConstructors`, and the four functions `RegisterStorageConstructor`,
`CreateStorage`, `RegisterHandlerConstructor` and `CreateHandler`.  The
interface `Loader`, which the file declares without implementing it, is
modelled after the specification.

Conventions of the embedding.

* The package variables are the fields of `Registry`; every function takes
  the state it starts in and yields an `Outcome` carrying the state it
  leaves.
* A Go `func` value stored in a table is a code pointer.  The tables hold
  values of an arbitrary type `SC` (resp. `HC`), `none` being the nil
  function, and what calling such a value does is given by a separate
  `storageCode` (resp. `handlerCode`): a constructor is arbitrary Go code,
  so it receives the whole state and may change it, for instance by calling
  back into the registry.
* `sync.Mutex` is not re-entrant: `Lock` on a held mutex does not return.
-/

namespace Blobserver

/-! ## Go values -/

/-- Go `error` values: `text msg` is an error made by `errors.New` or
`fmt.Errorf` whose `Error()` string is `msg`; `cycle chain` is the loader's
cycle error, carrying the chain of handler names. -/
inductive GoError where
  | text (msg : String)
  | cycle (chain : List String)
  deriving DecidableEq, Repr

/-- The package variable `ErrHandlerTypeNotFound`. -/
def ErrHandlerTypeNotFound : GoError :=
  .text "requested handler type not loaded"

/-- The error built by `fmt.Errorf(before + "%q" + after, arg)`.  The verb
`%q` prints `arg` as a double-quoted Go string literal (`strconv.Quote`); that
function of the Go standard library is the parameter `quote`. -/
def fmtErrorfQ (quote : String → String) (before after arg : String) : GoError :=
  .text (before ++ quote arg ++ after)

/-- A Go `map[string]V`, as the list of its bindings. -/
abbrev GoMap (V : Type) := List (String × V)

namespace GoMap

variable {V : Type}

/-- The two-valued read `v, ok := m[k]`: `some v` when `ok`, `none` otherwise. -/
def get? : GoMap V → String → Option V
  | [], _ => none
  | (k', v) :: m, k => if k' = k then some v else get? m k

/-- The assignment `m[k] = v`: the binding of `k` is replaced when there is
one and added otherwise. -/
def set : GoMap V → String → V → GoMap V
  | [], k, v => [(k, v)]
  | (k', v') :: m, k, v => if k' = k then (k, v) :: m else (k', v') :: set m k v

/-- The keys of the map. -/
def keys (m : GoMap V) : List String := m.map Prod.fst

end GoMap

/-! ## Outcomes of a call -/

/-- How a call ends.  `ret s a`: it returns `a`, leaving state `s`.
`panic s v`: it panics with value `v`; `s` is the state once its deferred
calls have run, which is the state a recovering caller sees.  `blocked s`: it
never returns, waiting in `Lock` on a mutex that is held, in state `s`.
`fatal s v`: the run time aborts the process with the fatal error `v`, which
no `recover` stops and before which no deferred call runs.
`exhausted`: the evaluation budget of a recursive model ran out before the
call ended (the functions of the registry never produce it themselves). -/
inductive Outcome (σ α : Type) where
  | ret (s : σ) (a : α)
  | panic (s : σ) (v : String)
  | blocked (s : σ)
  | fatal (s : σ) (v : String)
  | exhausted

namespace Outcome

variable {σ α β : Type}

/-- Sequencing: `f` runs after a call that returned. -/
def bind (o : Outcome σ α) (f : α → σ → Outcome σ β) : Outcome σ β :=
  match o with
  | .ret s a => f a s
  | .panic s v => .panic s v
  | .blocked s => .blocked s
  | .fatal s v => .fatal s v
  | .exhausted => .exhausted

/-- The statement `defer d()` around a function body whose outcome is `o`:
`d` runs when the body returns and also when it panics, the panic then
continuing; a panic of `d` itself replaces the one under way. -/
def deferred (d : σ → Outcome σ Unit) (o : Outcome σ α) : Outcome σ α :=
  match o with
  | .ret s a => (d s).bind (fun _ s' => .ret s' a)
  | .panic s v => (d s).bind (fun _ s' => .panic s' v)
  | .blocked s => .blocked s
  | .fatal s v => .fatal s v
  | .exhausted => .exhausted

/-- The state in which the call ends, when it ends or blocks. -/
def state? : Outcome σ α → Option σ
  | .ret s _ => some s
  | .panic s _ => some s
  | .blocked s => some s
  | .fatal s _ => some s
  | .exhausted => none

/-- The call returns normally. -/
def Returns : Outcome σ α → Prop
  | .ret _ _ => True
  | _ => False

/-- The call aborts with a panic. -/
def Panics : Outcome σ α → Prop
  | .panic _ _ => True
  | _ => False

/-- The call never returns because it waits for the mutex. -/
def Blocks : Outcome σ α → Prop
  | .blocked _ => True
  | _ => False

instance (o : Outcome σ α) : Decidable o.Returns := by
  cases o <;> simp only [Returns] <;> infer_instance

instance (o : Outcome σ α) : Decidable o.Panics := by
  cases o <;> simp only [Panics] <;> infer_instance

instance (o : Outcome σ α) : Decidable o.Blocks := by
  cases o <;> simp only [Blocks] <;> infer_instance

end Outcome

/-! ## The registry -/

/-- The package-level state.  `mapLock` is `true` while the mutex is held;
the two tables map a type name to a constructor value (`none` is the nil
function); `rest` is every other variable of the process, which the code of
the registry never mentions but a constructor may read and write. -/
structure Registry (SC HC X : Type) where
  mapLock : Bool
  storageConstructors : GoMap (Option SC)
  handlerConstructors : GoMap (Option HC)
  rest : X

section Functions

variable {SC HC X L O S H : Type}

/-- The call `mapLock.Lock()`. -/
def mapLock_Lock (s : Registry SC HC X) : Outcome (Registry SC HC X) Unit :=
  if s.mapLock then .blocked s else .ret { s with mapLock := true } ()

/-- The call `mapLock.Unlock()`; unlocking a mutex that is not locked is a
fatal error of the run time. -/
def mapLock_Unlock (s : Registry SC HC X) : Outcome (Registry SC HC X) Unit :=
  if s.mapLock then .ret { s with mapLock := false } ()
  else .fatal s "fatal error: sync: unlock of unlocked mutex"

/-- The call `ctor(loader, config)` of a function value: calling the nil
function is a run-time panic, calling `some c` runs the code of `c`. -/
def callFunc {C R : Type}
    (code : C → L → O → Registry SC HC X → Outcome (Registry SC HC X) R)
    (ctor : Option C) (loader : L) (config : O) (s : Registry SC HC X) :
    Outcome (Registry SC HC X) R :=
  match ctor with
  | none => .panic s "runtime error: invalid memory address or nil pointer dereference"
  | some c => code c loader config s

/-- The function `RegisterStorageConstructor` (registry.go, lines 79-86). -/
def RegisterStorageConstructor (typ : String) (ctor : Option SC)
    (s : Registry SC HC X) : Outcome (Registry SC HC X) Unit :=
  (mapLock_Lock s).bind fun _ s1 =>
    Outcome.deferred mapLock_Unlock
      (match s1.storageConstructors.get? typ with
       | some _ =>
         .panic s1 ("blobserver: StorageConstructor already registered for type: " ++ typ)
       | none =>
         .ret { s1 with storageConstructors := s1.storageConstructors.set typ ctor } ())

/-- The function `CreateStorage` (registry.go, lines 88-96). -/
def CreateStorage
    (storageCode : SC → L → O → Registry SC HC X →
      Outcome (Registry SC HC X) (Option S × Option GoError))
    (quote : String → String) (typ : String) (loader : L) (config : O)
    (s : Registry SC HC X) : Outcome (Registry SC HC X) (Option S × Option GoError) :=
  (mapLock_Lock s).bind fun _ s1 =>
    let r := s1.storageConstructors.get? typ
    (mapLock_Unlock s1).bind fun _ s2 =>
      match r with
      | none =>
        .ret s2 (none, some (fmtErrorfQ quote "Storage type " " not known or loaded" typ))
      | some ctor => callFunc storageCode ctor loader config s2

/-- The function `RegisterHandlerConstructor` (registry.go, lines 98-105). -/
def RegisterHandlerConstructor (typ : String) (ctor : Option HC)
    (s : Registry SC HC X) : Outcome (Registry SC HC X) Unit :=
  (mapLock_Lock s).bind fun _ s1 =>
    Outcome.deferred mapLock_Unlock
      (match s1.handlerConstructors.get? typ with
       | some _ =>
         .panic s1 ("blobserver: HandlerConstrutor already registered for type: " ++ typ)
       | none =>
         .ret { s1 with handlerConstructors := s1.handlerConstructors.set typ ctor } ())

/-- The function `CreateHandler` (registry.go, lines 107-115). -/
def CreateHandler
    (handlerCode : HC → L → O → Registry SC HC X →
      Outcome (Registry SC HC X) (Option H × Option GoError))
    (quote : String → String) (typ : String) (loader : L) (config : O)
    (s : Registry SC HC X) : Outcome (Registry SC HC X) (Option H × Option GoError) :=
  (mapLock_Lock s).bind fun _ s1 =>
    let r := s1.handlerConstructors.get? typ
    (mapLock_Unlock s1).bind fun _ s2 =>
      match r with
      | none =>
        .ret s2 (none,
          some (fmtErrorfQ quote "blobserver: Handler type " " not known or loaded" typ))
      | some ctor => callFunc handlerCode ctor loader config s2

end Functions

/-! ## Sequences of calls -/

section Sequences

variable {SC HC X L O S H : Type}

/-- The state in which a caller goes on after the call: the one left by a
normal return or, the caller recovering, by a panic; `none` when the call
never ends or the process is aborted. -/
def Outcome.resume? {σ α : Type} : Outcome σ α → Option σ
  | .ret s _ => some s
  | .panic s _ => some s
  | .blocked _ => none
  | .fatal _ _ => none
  | .exhausted => none

/-- The calls `RegisterStorageConstructor(typ, ctor)` for the pairs of the
list, one after another; a call that does not return ends the sequence. -/
def registerStorageAll : List (String × Option SC) → Registry SC HC X →
    Outcome (Registry SC HC X) Unit
  | [], s => .ret s ()
  | (typ, ctor) :: more, s =>
    (RegisterStorageConstructor typ ctor s).bind fun _ s' => registerStorageAll more s'

/-- The calls `RegisterHandlerConstructor(typ, ctor)` for the pairs of the
list, one after another; a call that does not return ends the sequence. -/
def registerHandlerAll : List (String × Option HC) → Registry SC HC X →
    Outcome (Registry SC HC X) Unit
  | [], s => .ret s ()
  | (typ, ctor) :: more, s =>
    (RegisterHandlerConstructor typ ctor s).bind fun _ s' => registerHandlerAll more s'

/-- One call of a function of the registry, with its arguments. -/
inductive RegistryOp (SC HC L O : Type) where
  | registerStorage (typ : String) (ctor : Option SC)
  | registerHandler (typ : String) (ctor : Option HC)
  | createStorage (typ : String) (loader : L) (config : O)
  | createHandler (typ : String) (loader : L) (config : O)

/-- The state after one call, a panic being recovered by the caller. -/
def RegistryOp.after
    (storageCode : SC → L → O → Registry SC HC X →
      Outcome (Registry SC HC X) (Option S × Option GoError))
    (handlerCode : HC → L → O → Registry SC HC X →
      Outcome (Registry SC HC X) (Option H × Option GoError))
    (quote : String → String) (op : RegistryOp SC HC L O) (s : Registry SC HC X) :
    Option (Registry SC HC X) :=
  match op with
  | .registerStorage typ ctor => (RegisterStorageConstructor typ ctor s).resume?
  | .registerHandler typ ctor => (RegisterHandlerConstructor typ ctor s).resume?
  | .createStorage typ loader config =>
    (CreateStorage storageCode quote typ loader config s).resume?
  | .createHandler typ loader config =>
    (CreateHandler handlerCode quote typ loader config s).resume?

/-- The state after a finite sequence of calls made one after another;
`none` when one of them never ends. -/
def runOps
    (storageCode : SC → L → O → Registry SC HC X →
      Outcome (Registry SC HC X) (Option S × Option GoError))
    (handlerCode : HC → L → O → Registry SC HC X →
      Outcome (Registry SC HC X) (Option H × Option GoError))
    (quote : String → String) : List (RegistryOp SC HC L O) → Registry SC HC X →
    Option (Registry SC HC X)
  | [], s => some s
  | op :: ops, s =>
    match op.after storageCode handlerCode quote s with
    | some s' => runOps storageCode handlerCode quote ops s'
    | none => none

/-- Every binding of `s` is a binding of `s'`, and the mutex is free in `s'`
if it is free in `s`. -/
def Registry.Extends (s s' : Registry SC HC X) : Prop :=
  (s.mapLock = false → s'.mapLock = false) ∧
  (∀ typ c, s.storageConstructors.get? typ = some c →
    s'.storageConstructors.get? typ = some c) ∧
  (∀ typ c, s.handlerConstructors.get? typ = some c →
    s'.handlerConstructors.get? typ = some c)

/-- The constructors reach the variables of the registry through its four
functions only (the variables are not exported): a constructor call that
ends keeps every binding and leaves the mutex free if it found it free. -/
def ThroughRegistry {C R : Type}
    (code : C → L → O → Registry SC HC X → Outcome (Registry SC HC X) R) : Prop :=
  ∀ c loader config s s', (code c loader config s).resume? = some s' → s.Extends s'

end Sequences

/-! ## The Loader

`registry.go` declares the interface `Loader` and leaves its implementation to
another package.  The definitions of this section follow the description of
the Loader in the specification (sections 3 and 4.2). -/

section LoaderModel

/-- Modelled from the spec: the status of a named handler instance, absent from
`registry.go` (section 3, `status`). -/
inductive Status where
  | Undiscovered
  | Declared
  | Constructing
  | Constructed
  | Failed
  deriving DecidableEq, Repr

/-- Modelled from the spec: the record `HandlerInstanceState` of section 3,
absent from `registry.go`.  Its `name` is the key under which the Loader keeps
it; `inst` is the field `instance`, a storage or a handler. -/
structure HandlerInstanceState (O S H : Type) where
  declaredType : String
  rawConfig : O
  status : Status
  inst : Option (S ⊕ H)
  constructionError : Option GoError

/-- Modelled from the spec: the state of a Loader (section 3), whose
implementation is absent from `registry.go`: the instance states keyed by
name, in the order of the configuration, and the names under construction,
the innermost first. -/
structure LoaderState (O S H : Type) where
  entries : GoMap (HandlerInstanceState O S H)
  stack : List String

/-- Modelled from the spec: the `Loader` value handed to a constructor, tied to
the construction it is handed to: `MyPrefix()` is the name of the instance
under construction (section 4.2). -/
structure LoaderHandle where
  MyPrefix : String
  deriving DecidableEq, Repr

/-- Modelled from the spec: the code of a constructor as its Loader sees it,
the Loader's implementation being absent from `registry.go`: the calls the
constructor makes on the Loader it was given, each with what the constructor
does with the answer, down to the pair it returns.  `T` is the type of what
the constructor builds. -/
inductive Body (S H T : Type) where
  | ret (r : Option T × Option GoError)
  | getHandler (name : String) (k : Option (S ⊕ H) × Option GoError → Body S H T)
  | findHandlerByType (handlerType : String)
      (k : String × Option (S ⊕ H) × Option GoError → Body S H T)

/-- Modelled from the spec: a storage constructor as a function of the Loader
it is given and its raw configuration (glossary, "Constructor"), the Loader's
implementation being absent from `registry.go`. -/
abbrev StorageCtor (O S H : Type) := LoaderHandle → O → Body S H S

/-- Modelled from the spec: a handler constructor as a function of the Loader
it is given and its raw configuration (glossary, "Constructor"), the Loader's
implementation being absent from `registry.go`. -/
abbrev HandlerCtor (O S H : Type) := LoaderHandle → O → Body S H H

/-- Modelled from the spec: the state of a process with one Loader, whose
implementation is absent from `registry.go`: the registry, and the Loader's
state as the rest. -/
abbrev World (O S H : Type) :=
  Registry (StorageCtor O S H) (HandlerCtor O S H) (LoaderState O S H)

variable {O S H T : Type}

/-- Modelled from the spec: the instance state of `name`, absent from
`registry.go`; a name the configuration does not declare is `Undiscovered`,
with the empty type and the nil configuration. -/
def LoaderState.entry [Inhabited O] (ld : LoaderState O S H) (name : String) :
    HandlerInstanceState O S H :=
  match ld.entries.get? name with
  | some e => e
  | none =>
    { declaredType := "", rawConfig := default, status := .Undiscovered, inst := none,
      constructionError := none }

/-- Modelled from the spec: `GetHandlerType(name)` of section 4.2, absent from
`registry.go`: the declared type, the empty string for an unknown name; no
effect. -/
def GetHandlerType (ld : LoaderState O S H) (name : String) : String :=
  match ld.entries.get? name with
  | some e => e.declaredType
  | none => ""

/-- Modelled from the spec: `FindHandlerByType(type)` of section 4.2 and of the
comment of `FindHandlerByTyper`, absent from `registry.go`: the first configured
instance whose declared type is `handlerType`, with its instance if it is
already constructed and nil otherwise; `ErrHandlerTypeNotFound` when there is
none.  It reads the Loader's state and changes nothing. -/
def FindHandlerByType (ld : LoaderState O S H) (handlerType : String) :
    String × Option (S ⊕ H) × Option GoError :=
  match ld.entries.find? (fun p => decide (p.2.declaredType = handlerType)) with
  | some p => (p.1, if p.2.status = .Constructed then p.2.inst else none, none)
  | none => ("", none, some ErrHandlerTypeNotFound)

/-- Modelled from the spec: the chain of a cycle error (section 4.2), absent
from `registry.go`: from `name` through the names whose construction began
after its own, back to `name`. -/
def cycleChain (stack : List String) (name : String) : List String :=
  name :: ((stack.takeWhile (fun n => decide (n ≠ name))).reverse ++ [name])

/-- Modelled from the spec: the step "transition to Constructing, push `name`
onto the active construction stack" of `GetHandler` (section 4.2), absent from
`registry.go`. -/
def LoaderState.begin [Inhabited O] (ld : LoaderState O S H) (name : String) :
    LoaderState O S H :=
  { entries := ld.entries.set name { ld.entry name with status := .Constructing }
    stack := name :: ld.stack }

/-- Modelled from the spec: the step "on success transition to Constructed and
cache the instance, pop the construction stack" of `GetHandler` (section 4.2),
absent from `registry.go`. -/
def LoaderState.succeed [Inhabited O] (ld : LoaderState O S H) (name : String)
    (i : Option (S ⊕ H)) : LoaderState O S H :=
  { entries := ld.entries.set name { ld.entry name with status := .Constructed, inst := i }
    stack := ld.stack.tail }

/-- Modelled from the spec: the step "on failure transition to Failed, pop the
construction stack" of `GetHandler` (section 4.2), absent from `registry.go`. -/
def LoaderState.fail [Inhabited O] (ld : LoaderState O S H) (name : String)
    (err : GoError) : LoaderState O S H :=
  { entries := ld.entries.set name
      { ld.entry name with status := .Failed, constructionError := some err }
    stack := ld.stack.tail }

/-- Modelled from the spec: running the code of a constructor, absent from
`registry.go`: each call on the Loader is answered, `GetHandler` by `gh`,
`FindHandlerByType` from the Loader's state as it is at that moment. -/
def runBody (gh : String → World O S H →
      Outcome (World O S H) (Option (S ⊕ H) × Option GoError)) :
    Body S H T → World O S H → Outcome (World O S H) (Option T × Option GoError)
  | .ret r, w => .ret w r
  | .getHandler name k, w =>
    match gh name w with
    | .ret w' r => runBody gh (k r) w'
    | .panic w' v => .panic w' v
    | .blocked w' => .blocked w'
    | .fatal w' v => .fatal w' v
    | .exhausted => .exhausted
  | .findHandlerByType handlerType k, w => runBody gh (k (FindHandlerByType w.rest handlerType)) w

/-- Modelled from the spec: the step "look up its declared type via
`GetHandlerType`, invoke `CreateStorage`/`CreateHandler` on the Registry
passing this Loader" of `GetHandler` (section 4.2), absent from `registry.go`.
The specification does not say which of the two tables serves a type:
`isStorageType` decides.  Calls that the constructor makes on its Loader are
answered by `gh`. -/
def construct [Inhabited O] (isStorageType : String → Bool) (quote : String → String)
    (gh : String → World O S H → Outcome (World O S H) (Option (S ⊕ H) × Option GoError))
    (name : String) (w : World O S H) :
    Outcome (World O S H) (Option (S ⊕ H) × Option GoError) :=
  let typ := GetHandlerType w.rest name
  if isStorageType typ then
    (CreateStorage (fun c l cfg s => runBody gh (c l cfg) s)
      quote typ (LoaderHandle.mk name) (w.rest.entry name).rawConfig w).bind
      fun r s => .ret s (r.1.map Sum.inl, r.2)
  else
    (CreateHandler (fun c l cfg s => runBody gh (c l cfg) s)
      quote typ (LoaderHandle.mk name) (w.rest.entry name).rawConfig w).bind
      fun r s => .ret s (r.1.map Sum.inr, r.2)

/-- Modelled from the spec: `GetHandler(name)` of section 4.2, absent from
`registry.go`.  A constructed instance is returned from the cache; a name under
construction is a cycle, answered by the cycle error before any construction
is entered; a failed one answers its recorded error; otherwise the instance
becomes `Constructing`, its declared type is constructed with this Loader and
the raw configuration, and the result is recorded.  The first argument bounds
the depth of nested constructions; `exhausted` is the answer when it is used
up. -/
def GetHandler [Inhabited O] (isStorageType : String → Bool) (quote : String → String) :
    Nat → String → World O S H → Outcome (World O S H) (Option (S ⊕ H) × Option GoError)
  | 0, _, _ => .exhausted
  | fuel + 1, name, w =>
    match (w.rest.entry name).status with
    | .Constructed => .ret w ((w.rest.entry name).inst, none)
    | .Constructing => .ret w (none, some (.cycle (cycleChain w.rest.stack name)))
    | .Failed => .ret w (none, (w.rest.entry name).constructionError)
    | _ =>
      (construct isStorageType quote (fun n s => GetHandler isStorageType quote fuel n s) name
        { w with rest := w.rest.begin name }).bind fun r w2 =>
        match r.2 with
        | none => .ret { w2 with rest := w2.rest.succeed name r.1 } (r.1, none)
        | some err => .ret { w2 with rest := w2.rest.fail name err } (none, some err)

/-- The constructor registered for the declared type of `name`, given the
Loader of `name` and its raw configuration, first asks the Loader for `dep`
and, when that fails, fails with the same error. -/
def DependsOn [Inhabited O] (isStorageType : String → Bool) (w : World O S H)
    (name dep : String) : Prop :=
  if isStorageType (w.rest.entry name).declaredType then
    ∃ c k, w.storageConstructors.get? (w.rest.entry name).declaredType = some (some c) ∧
      c (LoaderHandle.mk name) (w.rest.entry name).rawConfig = .getHandler dep k ∧
      ∀ x err, k (x, some err) = .ret (none, some err)
  else
    ∃ c k, w.handlerConstructors.get? (w.rest.entry name).declaredType = some (some c) ∧
      c (LoaderHandle.mk name) (w.rest.entry name).rawConfig = .getHandler dep k ∧
      ∀ x err, k (x, some err) = .ret (none, some err)

end LoaderModel

/-! ## Concrete constructors and states, used to evaluate the definitions -/

namespace Sample

/-- A stand-in for `strconv.Quote` that is right on letters and digits: the
argument between double quotes. -/
def quote (t : String) : String := "\"" ++ t ++ "\""

/-- The registry state of the samples: constructor values are numbers,
and `rest` counts the constructor calls made so far. -/
abbrev Reg := Registry Nat Nat Nat

/-- The code of the sample storage constructors; loaders, configurations and
storages are strings.  Number 0 builds the storage named by its configuration,
number 1 fails, number 2 registers the type `"late"` with constructor 0 before
it returns, every other one builds `"other"`.  All of them count the call. -/
def storageCode : Nat → String → String → Reg → Outcome Reg (Option String × Option GoError)
  | 0, _, config, s => .ret { s with rest := s.rest + 1 } (some config, none)
  | 1, _, _, s => .ret { s with rest := s.rest + 1 } (none, some (.text "bad config"))
  | 2, loader, _, s =>
    (RegisterStorageConstructor "late" (some 0) { s with rest := s.rest + 1 }).bind
      fun _ s' => .ret s' (some loader, none)
  | _, _, _, s => .ret { s with rest := s.rest + 1 } (some "other", none)

/-- The code of the sample handler constructors: number 0 builds the handler
named by its configuration, number 2 registers the handler type `"late"` with
constructor 0 before it returns, every other one fails.  All of them count the
call. -/
def handlerCode : Nat → String → String → Reg → Outcome Reg (Option String × Option GoError)
  | 0, _, config, s => .ret { s with rest := s.rest + 1 } (some config, none)
  | 2, loader, _, s =>
    (RegisterHandlerConstructor "late" (some 0) { s with rest := s.rest + 1 }).bind
      fun _ s' => .ret s' (some loader, none)
  | _, _, _, s => .ret { s with rest := s.rest + 1 } (none, some (.text "bad config"))

/-- A state with the mutex free, storage types `"disk"` and `"hook"` and
handler types `"ui"` and `"hook"`. -/
def reg : Reg :=
  { mapLock := false
    storageConstructors := [("disk", some 0), ("hook", some 2)]
    handlerConstructors := [("ui", some 0), ("hook", some 2)]
    rest := 0 }

/-- The state at program start: the mutex free and both tables empty. -/
def empty : Reg :=
  { mapLock := false, storageConstructors := [], handlerConstructors := [], rest := 0 }

/-- Which sample types are storage types. -/
def isStorageType (typ : String) : Bool := decide (typ = "diskstorage")

/-- A sample constructor for Loader programs: its configuration names the
instance it depends on, the empty string for none.  It asks its Loader for
that instance, fails with the same error when that fails, and otherwise
builds the value `built` makes out of its own name. -/
def refCtor {T : Type} (built : String → T) (l : LoaderHandle) (config : String) :
    Body String String T :=
  if config = "" then .ret (some (built l.MyPrefix), none)
  else .getHandler config fun r =>
    match r.2 with
    | some err => .ret (none, some err)
    | none => .ret (some (built l.MyPrefix), none)

/-- A sample constructor that looks for the handler of type `"ui"` while it is
constructed, and builds the name it is told. -/
def finderCtor (_ : LoaderHandle) (_ : String) : Body String String String :=
  .findHandlerByType "ui" fun r => .ret (some ("found " ++ r.1), none)

/-- A sample constructor that asks its Loader for the instance its
configuration names, as `refCtor` does, but goes on when that fails: it builds
its handler whatever the answer. -/
def lenientCtor (l : LoaderHandle) (config : String) : Body String String String :=
  .getHandler config fun _ => .ret (some ("handler at " ++ l.MyPrefix), none)

/-- A sample constructor that returns the nil handler with the nil error. -/
def hollowCtor (_ : LoaderHandle) (_ : String) : Body String String String :=
  .ret (none, none)

/-- A declared instance. -/
def declared (typ config : String) : HandlerInstanceState String String String :=
  { declaredType := typ, rawConfig := config, status := .Declared, inst := none,
    constructionError := none }

/-- The registry of the sample Loader programs. -/
def loaderWorld (entries : GoMap (HandlerInstanceState String String String)) :
    World String String String :=
  { mapLock := false
    storageConstructors := [("diskstorage", some (refCtor fun n => "storage at " ++ n))]
    handlerConstructors :=
      [("index", some (refCtor fun n => "handler at " ++ n)),
       ("sync", some (refCtor fun n => "handler at " ++ n)),
       ("ui", some (refCtor fun n => "handler at " ++ n)),
       ("finder", some finderCtor),
       ("lenient", some lenientCtor),
       ("hollow", some hollowCtor)]
    rest := { entries := entries, stack := [] } }

/-- The configuration with a cycle: `"/a/"` refers to `"/b/"` and `"/b/"` to
`"/a/"`. -/
def cyclic : World String String String :=
  loaderWorld [("/a/", declared "index" "/b/"), ("/b/", declared "sync" "/a/")]

/-- The configuration with a cycle in which the constructor of `"/b/"` goes on
when its call `GetHandler("/a/")` fails. -/
def lenientCycle : World String String String :=
  loaderWorld [("/a/", declared "index" "/b/"), ("/b/", declared "lenient" "/a/")]

/-- A configuration with the single instance `"/ui/"`, whose constructor
returns the nil handler with the nil error. -/
def hollow : World String String String :=
  loaderWorld [("/ui/", declared "hollow" "")]

/-- A configuration without a cycle: `"/idx/"` depends on the storage
`"/blobs/"`; `"/find/"` looks for the `"ui"` handler, which is `"/ui/"`. -/
def acyclic : World String String String :=
  loaderWorld [("/idx/", declared "index" "/blobs/"), ("/blobs/", declared "diskstorage" ""),
    ("/find/", declared "finder" ""), ("/ui/", declared "ui" "")]

/-- A sequence of calls: a new storage type, a second registration
of `"s3"` (it panics and is recovered), a construction whose constructor
registers `"late"`, a handler registered under the name `"s3"`, and a
construction of an unknown type. -/
def ops : List (RegistryOp Nat Nat String String) :=
  [.registerStorage "mem" (some 0), .registerStorage "s3" (some 0),
   .createStorage "hook" "loader" "cfg", .registerHandler "s3" (some 2),
   .createHandler "nope" "loader" "cfg"]

end Sample

/-! ## Basic facts about maps and outcomes -/

namespace GoMap

variable {V : Type}

theorem get?_set_self (m : GoMap V) (k : String) (v : V) :
    get? (set m k v) k = some v := by
  induction m with
  | nil => simp [set, get?]
  | cons p m ih =>
    obtain ⟨k', v'⟩ := p
    by_cases hk : k' = k
    · simp [set, get?, hk]
    · simp [set, get?, hk, ih]

theorem get?_set_ne (m : GoMap V) {k k' : String} (v : V) (hne : k ≠ k') :
    get? (set m k v) k' = get? m k' := by
  induction m with
  | nil => simp [set, get?, hne]
  | cons p m ih =>
    obtain ⟨k1, v1⟩ := p
    by_cases hk : k1 = k
    · subst hk
      simp [set, get?, hne]
    · by_cases hk' : k1 = k'
      · subst hk'
        simp [set, get?, hk]
      · simp [set, get?, hk, hk', ih]

theorem get?_eq_none_iff (m : GoMap V) (k : String) :
    get? m k = none ↔ k ∉ keys m := by
  induction m with
  | nil => simp [get?, keys]
  | cons p m ih =>
    obtain ⟨k', v'⟩ := p
    by_cases hk : k' = k
    · simp [get?, keys, hk]
    · have hk2 : ¬ k = k' := fun h => hk h.symm
      simp only [keys] at ih
      simp [get?, keys, hk, hk2, ih]

theorem get?_isSome_iff (m : GoMap V) (k : String) :
    (get? m k).isSome = true ↔ k ∈ keys m := by
  rw [← not_iff_not, ← get?_eq_none_iff]
  cases get? m k <;> simp

theorem mem_keys_of_get? {m : GoMap V} {k : String} {v : V} (h : get? m k = some v) :
    k ∈ keys m := by
  rw [← get?_isSome_iff, h]; rfl

theorem exists_get?_of_mem_keys {m : GoMap V} {k : String} (h : k ∈ keys m) :
    ∃ v, get? m k = some v := by
  rw [← get?_isSome_iff] at h
  exact Option.isSome_iff_exists.mp h

theorem keys_set_of_not_mem (m : GoMap V) (k : String) (v : V) (h : k ∉ keys m) :
    keys (set m k v) = keys m ++ [k] := by
  induction m with
  | nil => simp [set, keys]
  | cons p m ih =>
    obtain ⟨k', v'⟩ := p
    have hk : ¬ k' = k := by
      intro e; apply h; simp [keys, e]
    have hm : k ∉ keys m := by
      intro e; apply h; simp only [keys] at e; simp [keys, e]
    simp only [keys] at ih
    simp [set, keys, hk, ih hm]

end GoMap

section RegistryFacts

variable {SC HC X L O S H : Type}

/-- In a state whose mutex is free, `RegisterStorageConstructor` is the guarded
insertion, the mutex being free again at the end. -/
theorem RegisterStorageConstructor_free (typ : String) (ctor : Option SC)
    (s : Registry SC HC X) (h : s.mapLock = false) :
    RegisterStorageConstructor typ ctor s =
      match s.storageConstructors.get? typ with
      | some _ =>
        .panic s ("blobserver: StorageConstructor already registered for type: " ++ typ)
      | none => .ret { s with storageConstructors := s.storageConstructors.set typ ctor } () := by
  obtain ⟨lk, st, hd, x⟩ := s
  simp only at h
  subst h
  simp only [RegisterStorageConstructor, mapLock_Lock, Outcome.bind]
  cases hg : GoMap.get? st typ <;>
    simp [hg, Outcome.deferred, mapLock_Unlock, Outcome.bind]

/-- In a state whose mutex is free, `RegisterHandlerConstructor` is the guarded
insertion, the mutex being free again at the end. -/
theorem RegisterHandlerConstructor_free (typ : String) (ctor : Option HC)
    (s : Registry SC HC X) (h : s.mapLock = false) :
    RegisterHandlerConstructor typ ctor s =
      match s.handlerConstructors.get? typ with
      | some _ =>
        .panic s ("blobserver: HandlerConstrutor already registered for type: " ++ typ)
      | none => .ret { s with handlerConstructors := s.handlerConstructors.set typ ctor } () := by
  obtain ⟨lk, st, hd, x⟩ := s
  simp only at h
  subst h
  simp only [RegisterHandlerConstructor, mapLock_Lock, Outcome.bind]
  cases hg : GoMap.get? hd typ <;>
    simp [hg, Outcome.deferred, mapLock_Unlock, Outcome.bind]

/-- In a state whose mutex is free, `CreateStorage` is the lookup followed, in
that same state, by the error return or the constructor call. -/
theorem CreateStorage_free
    (storageCode : SC → L → O → Registry SC HC X →
      Outcome (Registry SC HC X) (Option S × Option GoError))
    (quote : String → String) (typ : String) (loader : L) (config : O)
    (s : Registry SC HC X) (h : s.mapLock = false) :
    CreateStorage storageCode quote typ loader config s =
      match s.storageConstructors.get? typ with
      | none =>
        .ret s (none, some (fmtErrorfQ quote "Storage type " " not known or loaded" typ))
      | some ctor => callFunc storageCode ctor loader config s := by
  obtain ⟨lk, st, hd, x⟩ := s
  simp only at h
  subst h
  simp [CreateStorage, mapLock_Lock, mapLock_Unlock, Outcome.bind]

/-- In a state whose mutex is free, `CreateHandler` is the lookup followed, in
that same state, by the error return or the constructor call. -/
theorem CreateHandler_free
    (handlerCode : HC → L → O → Registry SC HC X →
      Outcome (Registry SC HC X) (Option H × Option GoError))
    (quote : String → String) (typ : String) (loader : L) (config : O)
    (s : Registry SC HC X) (h : s.mapLock = false) :
    CreateHandler handlerCode quote typ loader config s =
      match s.handlerConstructors.get? typ with
      | none =>
        .ret s (none,
          some (fmtErrorfQ quote "blobserver: Handler type " " not known or loaded" typ))
      | some ctor => callFunc handlerCode ctor loader config s := by
  obtain ⟨lk, st, hd, x⟩ := s
  simp only at h
  subst h
  simp [CreateHandler, mapLock_Lock, mapLock_Unlock, Outcome.bind]

/-- With the mutex held, `RegisterStorageConstructor` does not get past `Lock`. -/
theorem RegisterStorageConstructor_locked (typ : String) (ctor : Option SC)
    (s : Registry SC HC X) (h : s.mapLock = true) :
    RegisterStorageConstructor typ ctor s = .blocked s := by
  simp [RegisterStorageConstructor, mapLock_Lock, h, Outcome.bind]

/-- With the mutex held, `RegisterHandlerConstructor` does not get past `Lock`. -/
theorem RegisterHandlerConstructor_locked (typ : String) (ctor : Option HC)
    (s : Registry SC HC X) (h : s.mapLock = true) :
    RegisterHandlerConstructor typ ctor s = .blocked s := by
  simp [RegisterHandlerConstructor, mapLock_Lock, h, Outcome.bind]

/-- With the mutex held, `CreateStorage` does not get past `Lock`. -/
theorem CreateStorage_locked
    (storageCode : SC → L → O → Registry SC HC X →
      Outcome (Registry SC HC X) (Option S × Option GoError))
    (quote : String → String) (typ : String) (loader : L) (config : O)
    (s : Registry SC HC X) (h : s.mapLock = true) :
    CreateStorage storageCode quote typ loader config s = .blocked s := by
  simp [CreateStorage, mapLock_Lock, h, Outcome.bind]

/-- With the mutex held, `CreateHandler` does not get past `Lock`. -/
theorem CreateHandler_locked
    (handlerCode : HC → L → O → Registry SC HC X →
      Outcome (Registry SC HC X) (Option H × Option GoError))
    (quote : String → String) (typ : String) (loader : L) (config : O)
    (s : Registry SC HC X) (h : s.mapLock = true) :
    CreateHandler handlerCode quote typ loader config s = .blocked s := by
  simp [CreateHandler, mapLock_Lock, h, Outcome.bind]

theorem Registry.Extends.refl (s : Registry SC HC X) : s.Extends s :=
  ⟨fun h => h, fun _ _ h => h, fun _ _ h => h⟩

theorem Registry.Extends.trans {s t u : Registry SC HC X} (h1 : s.Extends t)
    (h2 : t.Extends u) : s.Extends u :=
  ⟨fun h => h2.1 (h1.1 h), fun typ c h => h2.2.1 typ c (h1.2.1 typ c h),
    fun typ c h => h2.2.2 typ c (h1.2.2 typ c h)⟩

/-- A registration keeps every binding there was. -/
theorem RegisterStorageConstructor_extends (typ : String) (ctor : Option SC)
    (s s' : Registry SC HC X)
    (h : (RegisterStorageConstructor typ ctor s).resume? = some s') : s.Extends s' := by
  cases hl : s.mapLock with
  | true =>
    rw [RegisterStorageConstructor_locked typ ctor s hl] at h
    simp [Outcome.resume?] at h
  | false =>
    rw [RegisterStorageConstructor_free typ ctor s hl] at h
    cases hg : GoMap.get? s.storageConstructors typ with
    | some v =>
      simp only [hg, Outcome.resume?, Option.some.injEq] at h
      subst h
      exact Registry.Extends.refl s
    | none =>
      simp only [hg, Outcome.resume?, Option.some.injEq] at h
      subst h
      refine ⟨fun h => h, fun typ' c hc => ?_, fun _ _ h => h⟩
      have hne : typ ≠ typ' := by
        rintro rfl
        rw [hg] at hc
        cases hc
      simpa [GoMap.get?_set_ne _ _ hne] using hc

/-- A registration keeps every binding there was. -/
theorem RegisterHandlerConstructor_extends (typ : String) (ctor : Option HC)
    (s s' : Registry SC HC X)
    (h : (RegisterHandlerConstructor typ ctor s).resume? = some s') : s.Extends s' := by
  cases hl : s.mapLock with
  | true =>
    rw [RegisterHandlerConstructor_locked typ ctor s hl] at h
    simp [Outcome.resume?] at h
  | false =>
    rw [RegisterHandlerConstructor_free typ ctor s hl] at h
    cases hg : GoMap.get? s.handlerConstructors typ with
    | some v =>
      simp only [hg, Outcome.resume?, Option.some.injEq] at h
      subst h
      exact Registry.Extends.refl s
    | none =>
      simp only [hg, Outcome.resume?, Option.some.injEq] at h
      subst h
      refine ⟨fun h => h, fun _ _ h => h, fun typ' c hc => ?_⟩
      have hne : typ ≠ typ' := by
        rintro rfl
        rw [hg] at hc
        cases hc
      simpa [GoMap.get?_set_ne _ _ hne] using hc

/-- The call of a function value keeps every binding when the code does. -/
theorem callFunc_extends {C R : Type}
    (code : C → L → O → Registry SC HC X → Outcome (Registry SC HC X) R)
    (hcode : ThroughRegistry code) (ctor : Option C) (loader : L) (config : O)
    (s s' : Registry SC HC X)
    (h : (callFunc code ctor loader config s).resume? = some s') : s.Extends s' := by
  cases ctor with
  | none =>
    simp only [callFunc, Outcome.resume?, Option.some.injEq] at h
    subst h
    exact Registry.Extends.refl s
  | some c => exact hcode c loader config s s' h

/-- A construction keeps every binding when the constructors do. -/
theorem CreateStorage_extends
    (storageCode : SC → L → O → Registry SC HC X →
      Outcome (Registry SC HC X) (Option S × Option GoError))
    (hcode : ThroughRegistry storageCode)
    (quote : String → String) (typ : String) (loader : L) (config : O)
    (s s' : Registry SC HC X)
    (h : (CreateStorage storageCode quote typ loader config s).resume? = some s') :
    s.Extends s' := by
  cases hl : s.mapLock with
  | true =>
    rw [CreateStorage_locked storageCode quote typ loader config s hl] at h
    simp [Outcome.resume?] at h
  | false =>
    rw [CreateStorage_free storageCode quote typ loader config s hl] at h
    cases hg : GoMap.get? s.storageConstructors typ with
    | none =>
      simp only [hg, Outcome.resume?, Option.some.injEq] at h
      subst h
      exact Registry.Extends.refl s
    | some ctor =>
      simp only [hg] at h
      exact callFunc_extends storageCode hcode ctor loader config s s' h

/-- A construction keeps every binding when the constructors do. -/
theorem CreateHandler_extends
    (handlerCode : HC → L → O → Registry SC HC X →
      Outcome (Registry SC HC X) (Option H × Option GoError))
    (hcode : ThroughRegistry handlerCode)
    (quote : String → String) (typ : String) (loader : L) (config : O)
    (s s' : Registry SC HC X)
    (h : (CreateHandler handlerCode quote typ loader config s).resume? = some s') :
    s.Extends s' := by
  cases hl : s.mapLock with
  | true =>
    rw [CreateHandler_locked handlerCode quote typ loader config s hl] at h
    simp [Outcome.resume?] at h
  | false =>
    rw [CreateHandler_free handlerCode quote typ loader config s hl] at h
    cases hg : GoMap.get? s.handlerConstructors typ with
    | none =>
      simp only [hg, Outcome.resume?, Option.some.injEq] at h
      subst h
      exact Registry.Extends.refl s
    | some ctor =>
      simp only [hg] at h
      exact callFunc_extends handlerCode hcode ctor loader config s s' h

/-- A finite sequence of calls keeps every binding when the constructors do. -/
theorem runOps_extends
    (storageCode : SC → L → O → Registry SC HC X →
      Outcome (Registry SC HC X) (Option S × Option GoError))
    (handlerCode : HC → L → O → Registry SC HC X →
      Outcome (Registry SC HC X) (Option H × Option GoError))
    (hS : ThroughRegistry storageCode) (hH : ThroughRegistry handlerCode)
    (quote : String → String) (ops : List (RegistryOp SC HC L O)) :
    ∀ s s' : Registry SC HC X,
      runOps storageCode handlerCode quote ops s = some s' → s.Extends s' := by
  induction ops with
  | nil =>
    intro s s' h
    simp only [runOps, Option.some.injEq] at h
    subst h
    exact Registry.Extends.refl s
  | cons op ops ih =>
    intro s s' h
    simp only [runOps] at h
    cases ha : op.after storageCode handlerCode quote s with
    | none => simp [ha] at h
    | some t =>
      simp only [ha] at h
      have hst : s.Extends t := by
        cases op with
        | registerStorage typ ctor =>
          exact RegisterStorageConstructor_extends typ ctor s t ha
        | registerHandler typ ctor =>
          exact RegisterHandlerConstructor_extends typ ctor s t ha
        | createStorage typ loader config =>
          exact CreateStorage_extends storageCode hS quote typ loader config s t ha
        | createHandler typ loader config =>
          exact CreateHandler_extends handlerCode hH quote typ loader config s t ha
      exact hst.trans (ih t s' h)

/-- A registration that returned was made with the mutex free and left the
binding it was asked for. -/
theorem RegisterStorageConstructor_ret (typ : String) (ctor : Option SC)
    (s s' : Registry SC HC X) (h : RegisterStorageConstructor typ ctor s = .ret s' ()) :
    s'.mapLock = false ∧ s'.storageConstructors.get? typ = some ctor := by
  cases hl : s.mapLock with
  | true =>
    rw [RegisterStorageConstructor_locked typ ctor s hl] at h
    cases h
  | false =>
    rw [RegisterStorageConstructor_free typ ctor s hl] at h
    cases hg : GoMap.get? s.storageConstructors typ with
    | some v => simp [hg] at h
    | none =>
      simp only [hg, Outcome.ret.injEq, and_true] at h
      subst h
      exact ⟨hl, GoMap.get?_set_self _ _ _⟩

/-- A registration that returned was made with the mutex free and left the
binding it was asked for. -/
theorem RegisterHandlerConstructor_ret (typ : String) (ctor : Option HC)
    (s s' : Registry SC HC X) (h : RegisterHandlerConstructor typ ctor s = .ret s' ()) :
    s'.mapLock = false ∧ s'.handlerConstructors.get? typ = some ctor := by
  cases hl : s.mapLock with
  | true =>
    rw [RegisterHandlerConstructor_locked typ ctor s hl] at h
    cases h
  | false =>
    rw [RegisterHandlerConstructor_free typ ctor s hl] at h
    cases hg : GoMap.get? s.handlerConstructors typ with
    | some v => simp [hg] at h
    | none =>
      simp only [hg, Outcome.ret.injEq, and_true] at h
      subst h
      exact ⟨hl, GoMap.get?_set_self _ _ _⟩

/-- The sample storage constructors reach the registry through its functions. -/
theorem Sample.storageCode_through : ThroughRegistry Sample.storageCode := by
  intro c loader config s s' h
  rcases c with _ | _ | _ | n
  · simp only [Sample.storageCode, Outcome.resume?, Option.some.injEq] at h
    subst h
    exact ⟨fun h => h, fun _ _ h => h, fun _ _ h => h⟩
  · simp only [Sample.storageCode, Outcome.resume?, Option.some.injEq] at h
    subst h
    exact ⟨fun h => h, fun _ _ h => h, fun _ _ h => h⟩
  · simp only [Sample.storageCode] at h
    have key : ∀ t, (RegisterStorageConstructor "late" (some 0)
        ({ s with rest := s.rest + 1 } : Sample.Reg)).resume? = some t → s.Extends t :=
      fun t ht => RegisterStorageConstructor_extends "late" (some 0)
        ({ s with rest := s.rest + 1 } : Sample.Reg) t ht
    cases hr : RegisterStorageConstructor "late" (some 0)
        ({ s with rest := s.rest + 1 } : Sample.Reg) with
    | ret t u =>
      rw [hr] at h key
      simp only [Outcome.bind, Outcome.resume?, Option.some.injEq] at h
      subst h
      exact key _ rfl
    | panic t v =>
      rw [hr] at h key
      simp only [Outcome.bind, Outcome.resume?, Option.some.injEq] at h
      subst h
      exact key _ rfl
    | blocked t => rw [hr] at h; simp [Outcome.bind, Outcome.resume?] at h
    | fatal t v => rw [hr] at h; simp [Outcome.bind, Outcome.resume?] at h
    | exhausted => rw [hr] at h; simp [Outcome.bind, Outcome.resume?] at h
  · simp only [Sample.storageCode, Outcome.resume?, Option.some.injEq] at h
    subst h
    exact ⟨fun h => h, fun _ _ h => h, fun _ _ h => h⟩

/-- The sample handler constructors reach the registry through its functions. -/
theorem Sample.handlerCode_through : ThroughRegistry Sample.handlerCode := by
  intro c loader config s s' h
  rcases c with _ | _ | _ | n
  · simp only [Sample.handlerCode, Outcome.resume?, Option.some.injEq] at h
    subst h
    exact ⟨fun h => h, fun _ _ h => h, fun _ _ h => h⟩
  · simp only [Sample.handlerCode, Outcome.resume?, Option.some.injEq] at h
    subst h
    exact ⟨fun h => h, fun _ _ h => h, fun _ _ h => h⟩
  · simp only [Sample.handlerCode] at h
    have key : ∀ t, (RegisterHandlerConstructor "late" (some 0)
        ({ s with rest := s.rest + 1 } : Sample.Reg)).resume? = some t → s.Extends t :=
      fun t ht => RegisterHandlerConstructor_extends "late" (some 0)
        ({ s with rest := s.rest + 1 } : Sample.Reg) t ht
    cases hr : RegisterHandlerConstructor "late" (some 0)
        ({ s with rest := s.rest + 1 } : Sample.Reg) with
    | ret t u =>
      rw [hr] at h key
      simp only [Outcome.bind, Outcome.resume?, Option.some.injEq] at h
      subst h
      exact key _ rfl
    | panic t v =>
      rw [hr] at h key
      simp only [Outcome.bind, Outcome.resume?, Option.some.injEq] at h
      subst h
      exact key _ rfl
    | blocked t => rw [hr] at h; simp [Outcome.bind, Outcome.resume?] at h
    | fatal t v => rw [hr] at h; simp [Outcome.bind, Outcome.resume?] at h
    | exhausted => rw [hr] at h; simp [Outcome.bind, Outcome.resume?] at h
  · simp only [Sample.handlerCode, Outcome.resume?, Option.some.injEq] at h
    subst h
    exact ⟨fun h => h, fun _ _ h => h, fun _ _ h => h⟩

/-- Registering pairwise distinct type names, none of them in the storage
table yet, succeeds for each and binds each name to its constructor. -/
theorem registerStorageAll_fresh (pairs : List (String × Option SC)) :
    ∀ s : Registry SC HC X, s.mapLock = false → (pairs.map Prod.fst).Nodup →
      (∀ p ∈ pairs, p.1 ∉ s.storageConstructors.keys) →
      ∃ s', registerStorageAll pairs s = .ret s' () ∧ s.Extends s' ∧ s'.mapLock = false ∧
        ∀ p ∈ pairs, s'.storageConstructors.get? p.1 = some p.2 := by
  induction pairs with
  | nil =>
    intro s hl _ _
    exact ⟨s, rfl, Registry.Extends.refl s, hl, by simp⟩
  | cons q more ih =>
    obtain ⟨typ, ctor⟩ := q
    intro s hl hnd hfresh
    have hnone : GoMap.get? s.storageConstructors typ = none :=
      (GoMap.get?_eq_none_iff _ _).mpr (hfresh (typ, ctor) (List.mem_cons_self _ _))
    have hreg := RegisterStorageConstructor_free typ ctor s hl
    simp only [hnone] at hreg
    rw [List.map_cons, List.nodup_cons] at hnd
    obtain ⟨s', hrun, hext, hl', hb⟩ :=
      ih { s with storageConstructors := s.storageConstructors.set typ ctor } hl hnd.2
        (by
          intro p hp
          show p.1 ∉ GoMap.keys (GoMap.set s.storageConstructors typ ctor)
          rw [GoMap.keys_set_of_not_mem _ _ _ ((GoMap.get?_eq_none_iff _ _).mp hnone)]
          intro hmem
          rcases List.mem_append.mp hmem with h1 | h1
          · exact hfresh p (List.mem_cons_of_mem _ hp) h1
          · have hpt : p.1 = typ := by simpa using h1
            exact hnd.1 (List.mem_map.mpr ⟨p, hp, hpt⟩))
    have hs1 : s.Extends { s with storageConstructors := s.storageConstructors.set typ ctor } :=
      RegisterStorageConstructor_extends typ ctor s _ (by rw [hreg]; rfl)
    refine ⟨s', ?_, hs1.trans hext, hl', ?_⟩
    · simp only [registerStorageAll, hreg, Outcome.bind]
      exact hrun
    · intro p hp
      rcases List.mem_cons.mp hp with rfl | hp
      · exact hext.2.1 _ _ (GoMap.get?_set_self _ _ _)
      · exact hb p hp

/-- Registering pairwise distinct type names, none of them in the handler
table yet, succeeds for each and binds each name to its constructor. -/
theorem registerHandlerAll_fresh (pairs : List (String × Option HC)) :
    ∀ s : Registry SC HC X, s.mapLock = false → (pairs.map Prod.fst).Nodup →
      (∀ p ∈ pairs, p.1 ∉ s.handlerConstructors.keys) →
      ∃ s', registerHandlerAll pairs s = .ret s' () ∧ s.Extends s' ∧ s'.mapLock = false ∧
        ∀ p ∈ pairs, s'.handlerConstructors.get? p.1 = some p.2 := by
  induction pairs with
  | nil =>
    intro s hl _ _
    exact ⟨s, rfl, Registry.Extends.refl s, hl, by simp⟩
  | cons q more ih =>
    obtain ⟨typ, ctor⟩ := q
    intro s hl hnd hfresh
    have hnone : GoMap.get? s.handlerConstructors typ = none :=
      (GoMap.get?_eq_none_iff _ _).mpr (hfresh (typ, ctor) (List.mem_cons_self _ _))
    have hreg := RegisterHandlerConstructor_free typ ctor s hl
    simp only [hnone] at hreg
    rw [List.map_cons, List.nodup_cons] at hnd
    obtain ⟨s', hrun, hext, hl', hb⟩ :=
      ih { s with handlerConstructors := s.handlerConstructors.set typ ctor } hl hnd.2
        (by
          intro p hp
          show p.1 ∉ GoMap.keys (GoMap.set s.handlerConstructors typ ctor)
          rw [GoMap.keys_set_of_not_mem _ _ _ ((GoMap.get?_eq_none_iff _ _).mp hnone)]
          intro hmem
          rcases List.mem_append.mp hmem with h1 | h1
          · exact hfresh p (List.mem_cons_of_mem _ hp) h1
          · have hpt : p.1 = typ := by simpa using h1
            exact hnd.1 (List.mem_map.mpr ⟨p, hp, hpt⟩))
    have hs1 : s.Extends { s with handlerConstructors := s.handlerConstructors.set typ ctor } :=
      RegisterHandlerConstructor_extends typ ctor s _ (by rw [hreg]; rfl)
    refine ⟨s', ?_, hs1.trans hext, hl', ?_⟩
    · simp only [registerHandlerAll, hreg, Outcome.bind]
      exact hrun
    · intro p hp
      rcases List.mem_cons.mp hp with rfl | hp
      · exact hext.2.2 _ _ (GoMap.get?_set_self _ _ _)
      · exact hb p hp

/-- The state in which `RegisterStorageConstructor` ends has the handler table
it started with. -/
theorem RegisterStorageConstructor_frame (typ : String) (ctor : Option SC)
    (s s' : Registry SC HC X)
    (h : (RegisterStorageConstructor typ ctor s).state? = some s') :
    s'.handlerConstructors = s.handlerConstructors := by
  cases hl : s.mapLock with
  | true =>
    rw [RegisterStorageConstructor_locked typ ctor s hl] at h
    simp only [Outcome.state?, Option.some.injEq] at h
    rw [← h]
  | false =>
    rw [RegisterStorageConstructor_free typ ctor s hl] at h
    cases hg : GoMap.get? s.storageConstructors typ <;>
      simp only [hg, Outcome.state?, Option.some.injEq] at h <;> rw [← h]

/-- The state in which `RegisterHandlerConstructor` ends has the storage table
it started with. -/
theorem RegisterHandlerConstructor_frame (typ : String) (ctor : Option HC)
    (s s' : Registry SC HC X)
    (h : (RegisterHandlerConstructor typ ctor s).state? = some s') :
    s'.storageConstructors = s.storageConstructors := by
  cases hl : s.mapLock with
  | true =>
    rw [RegisterHandlerConstructor_locked typ ctor s hl] at h
    simp only [Outcome.state?, Option.some.injEq] at h
    rw [← h]
  | false =>
    rw [RegisterHandlerConstructor_free typ ctor s hl] at h
    cases hg : GoMap.get? s.handlerConstructors typ <;>
      simp only [hg, Outcome.state?, Option.some.injEq] at h <;> rw [← h]

/-- A registration that panicked was made with the mutex free on a type name
that was bound, and left the state it found. -/
theorem RegisterStorageConstructor_panic (typ : String) (ctor : Option SC)
    (s s' : Registry SC HC X) (v : String)
    (h : RegisterStorageConstructor typ ctor s = .panic s' v) :
    s.mapLock = false ∧ s' = s ∧
      (∃ old, s.storageConstructors.get? typ = some old) ∧
      v = "blobserver: StorageConstructor already registered for type: " ++ typ := by
  cases hl : s.mapLock with
  | true =>
    rw [RegisterStorageConstructor_locked typ ctor s hl] at h
    cases h
  | false =>
    rw [RegisterStorageConstructor_free typ ctor s hl] at h
    cases hg : GoMap.get? s.storageConstructors typ with
    | none => simp [hg] at h
    | some old =>
      simp only [hg, Outcome.panic.injEq] at h
      exact ⟨rfl, h.1.symm, ⟨old, rfl⟩, h.2.symm⟩

/-- A registration that panicked was made with the mutex free on a type name
that was bound, and left the state it found. -/
theorem RegisterHandlerConstructor_panic (typ : String) (ctor : Option HC)
    (s s' : Registry SC HC X) (v : String)
    (h : RegisterHandlerConstructor typ ctor s = .panic s' v) :
    s.mapLock = false ∧ s' = s ∧
      (∃ old, s.handlerConstructors.get? typ = some old) ∧
      v = "blobserver: HandlerConstrutor already registered for type: " ++ typ := by
  cases hl : s.mapLock with
  | true =>
    rw [RegisterHandlerConstructor_locked typ ctor s hl] at h
    cases h
  | false =>
    rw [RegisterHandlerConstructor_free typ ctor s hl] at h
    cases hg : GoMap.get? s.handlerConstructors typ with
    | none => simp [hg] at h
    | some old =>
      simp only [hg, Outcome.panic.injEq] at h
      exact ⟨rfl, h.1.symm, ⟨old, rfl⟩, h.2.symm⟩

end RegistryFacts

/-! ## Facts about the Loader -/

section LoaderFacts

variable {O S H T : Type} [Inhabited O]

theorem LoaderState.entry_set_self (entries : GoMap (HandlerInstanceState O S H))
    (stack : List String) (name : String) (e : HandlerInstanceState O S H) :
    LoaderState.entry { entries := entries.set name e, stack := stack } name = e := by
  simp [LoaderState.entry, GoMap.get?_set_self]

theorem LoaderState.entry_set_ne (ld : LoaderState O S H)
    (stack : List String) {name other : String} (e : HandlerInstanceState O S H)
    (hne : name ≠ other) :
    LoaderState.entry { entries := ld.entries.set name e, stack := stack } other =
      ld.entry other := by
  simp [LoaderState.entry, GoMap.get?_set_ne _ _ hne]

theorem GetHandlerType_eq_entry (ld : LoaderState O S H) (name : String) :
    GetHandlerType ld name = (ld.entry name).declaredType := by
  unfold GetHandlerType LoaderState.entry
  cases GoMap.get? ld.entries name <;> rfl

/-- A name under construction is answered by the cycle error at once: no
construction is entered and the state is left as it is. -/
theorem GetHandler_constructing (isStorageType : String → Bool) (quote : String → String)
    (fuel : Nat) (name : String) (w : World O S H)
    (h : (w.rest.entry name).status = .Constructing) :
    GetHandler isStorageType quote (fuel + 1) name w =
      .ret w (none, some (.cycle (cycleChain w.rest.stack name))) := by
  simp only [GetHandler, h]

/-- A declared name is constructed. -/
theorem GetHandler_declared (isStorageType : String → Bool) (quote : String → String)
    (fuel : Nat) (name : String) (w : World O S H)
    (h : (w.rest.entry name).status = .Declared) :
    GetHandler isStorageType quote (fuel + 1) name w =
      (construct isStorageType quote (fun n s => GetHandler isStorageType quote fuel n s) name
        { w with rest := w.rest.begin name }).bind fun r w2 =>
        match r.2 with
        | none => .ret { w2 with rest := w2.rest.succeed name r.1 } (r.1, none)
        | some err => .ret { w2 with rest := w2.rest.fail name err } (none, some err) := by
  simp only [GetHandler, h]

/-- The construction of an instance whose constructor depends on `dep` fails
with the error of `dep`, in the state `dep` left. -/
theorem construct_of_dependsOn (isStorageType : String → Bool) (quote : String → String)
    (gh : String → World O S H → Outcome (World O S H) (Option (S ⊕ H) × Option GoError))
    (name dep : String) (w w' : World O S H) (x : Option (S ⊕ H)) (err : GoError)
    (hl : w.mapLock = false) (hdep : DependsOn isStorageType w name dep)
    (hgh : gh dep w = .ret w' (x, some err)) :
    construct isStorageType quote gh name w = .ret w' (none, some err) := by
  unfold DependsOn at hdep
  unfold construct
  rw [GetHandlerType_eq_entry]
  by_cases hst : isStorageType (w.rest.entry name).declaredType = true
  · rw [if_pos hst] at hdep
    obtain ⟨c, k, hc, hbody, hk⟩ := hdep
    rw [if_pos hst, CreateStorage_free _ quote _ _ _ w hl, hc]
    simp only [callFunc, hbody, runBody, hgh, hk, Outcome.bind, Option.map_none']
  · rw [if_neg hst] at hdep
    obtain ⟨c, k, hc, hbody, hk⟩ := hdep
    rw [if_neg hst, CreateHandler_free _ quote _ _ _ w hl, hc]
    simp only [callFunc, hbody, runBody, hgh, hk, Outcome.bind, Option.map_none']

/-- Starting the construction of another name leaves a dependency as it is. -/
theorem DependsOn_begin_other (isStorageType : String → Bool) (w : World O S H)
    (other name dep : String) (hne : other ≠ name)
    (h : DependsOn isStorageType w name dep) :
    DependsOn isStorageType { w with rest := w.rest.begin other } name dep := by
  unfold DependsOn at h ⊢
  simp only [LoaderState.begin, LoaderState.entry_set_ne w.rest _ _ hne]
  exact h

/-- Starting the construction of a name leaves its own dependency as it is. -/
theorem DependsOn_begin_self (isStorageType : String → Bool) (w : World O S H)
    (name dep : String) (h : DependsOn isStorageType w name dep) :
    DependsOn isStorageType { w with rest := w.rest.begin name } name dep := by
  unfold DependsOn at h ⊢
  simp only [LoaderState.begin, LoaderState.entry_set_self]
  exact h

/-- A construction that `GetHandler` reports as a success leaves the instance
`Constructed`, and the instance cached for it is the one `GetHandler` returns,
which is the one the constructor returned. -/
theorem GetHandler_caches (isStorageType : String → Bool) (quote : String → String)
    (fuel : Nat) (name : String) (w w' : World O S H) (i : Option (S ⊕ H))
    (hst : (w.rest.entry name).status = .Declared)
    (h : GetHandler isStorageType quote fuel name w = .ret w' (i, none)) :
    (w'.rest.entry name).status = .Constructed ∧ (w'.rest.entry name).inst = i := by
  cases fuel with
  | zero =>
    have h0 : GetHandler isStorageType quote 0 name w = .exhausted := rfl
    rw [h0] at h
    cases h
  | succ n =>
    rw [GetHandler_declared isStorageType quote n name w hst] at h
    cases hc : construct isStorageType quote
        (fun m s => GetHandler isStorageType quote n m s) name
        { w with rest := w.rest.begin name } with
    | ret w2 r =>
      obtain ⟨a, e⟩ := r
      rw [hc] at h
      cases e with
      | none =>
        simp only [Outcome.bind, Outcome.ret.injEq, Prod.mk.injEq, and_true] at h
        obtain ⟨hw, hi⟩ := h
        subst hw hi
        simp only [LoaderState.succeed, LoaderState.entry_set_self, and_self]
      | some err =>
        simp [Outcome.bind] at h
    | panic w2 v => rw [hc] at h; simp [Outcome.bind] at h
    | blocked w2 => rw [hc] at h; simp [Outcome.bind] at h
    | fatal w2 v => rw [hc] at h; simp [Outcome.bind] at h
    | exhausted => rw [hc] at h; simp [Outcome.bind] at h

end LoaderFacts

section FindFacts

variable {O S H : Type}

/-- What `FindHandlerByType` answers when an instance of the type is found. -/
theorem FindHandlerByType_found (ld : LoaderState O S H) (handlerType : String)
    (p : String × HandlerInstanceState O S H)
    (h : ld.entries.find? (fun p => decide (p.2.declaredType = handlerType)) = some p) :
    FindHandlerByType ld handlerType =
      (p.1, if p.2.status = .Constructed then p.2.inst else none, none) ∧
    p ∈ ld.entries ∧ p.2.declaredType = handlerType := by
  refine ⟨by simp only [FindHandlerByType, h], List.mem_of_find?_eq_some h, ?_⟩
  simpa using List.find?_some h

/-- What `FindHandlerByType` answers when no instance of the type is found. -/
theorem FindHandlerByType_none (ld : LoaderState O S H) (handlerType : String)
    (h : ld.entries.find? (fun p => decide (p.2.declaredType = handlerType)) = none) :
    FindHandlerByType ld handlerType = ("", none, some ErrHandlerTypeNotFound) ∧
    ∀ p ∈ ld.entries, p.2.declaredType ≠ handlerType := by
  refine ⟨by simp only [FindHandlerByType, h], fun p hp => ?_⟩
  simpa using List.find?_eq_none.mp h p hp

end FindFacts

/-! ## The claims -/

section Claims

variable {SC HC X L O S H : Type}

/-- C1: with the mutex free at the call, `RegisterStorageConstructor(typ, ctor)`
panics if and only if `typ` is already a key of the storage table and returns
normally otherwise; likewise `RegisterHandlerConstructor` and the handler
table. -/
theorem register_panics_iff_registered (typ : String) (cs : Option SC) (ch : Option HC)
    (s : Registry SC HC X) (h : s.mapLock = false) :
    ((RegisterStorageConstructor typ cs s).Panics ↔ typ ∈ s.storageConstructors.keys) ∧
    ((RegisterStorageConstructor typ cs s).Returns ↔ typ ∉ s.storageConstructors.keys) ∧
    ((RegisterHandlerConstructor typ ch s).Panics ↔ typ ∈ s.handlerConstructors.keys) ∧
    ((RegisterHandlerConstructor typ ch s).Returns ↔ typ ∉ s.handlerConstructors.keys) := by
  rw [RegisterStorageConstructor_free typ cs s h, RegisterHandlerConstructor_free typ ch s h,
    ← GoMap.get?_eq_none_iff, ← GoMap.get?_eq_none_iff,
    ← GoMap.get?_isSome_iff, ← GoMap.get?_isSome_iff]
  refine ⟨?_, ?_, ?_, ?_⟩
  · cases GoMap.get? s.storageConstructors typ <;> simp [Outcome.Panics]
  · cases GoMap.get? s.storageConstructors typ <;> simp [Outcome.Returns]
  · cases GoMap.get? s.handlerConstructors typ <;> simp [Outcome.Panics]
  · cases GoMap.get? s.handlerConstructors typ <;> simp [Outcome.Returns]

/-- Witness of C1 on the sample state: `"disk"` is a storage type and not a
handler type there. -/
theorem register_panics_iff_registered_witness :
    (RegisterStorageConstructor "disk" (some 1) Sample.reg).Panics ∧
    (RegisterHandlerConstructor "disk" (some 1) Sample.reg).Returns := by
  have h := register_panics_iff_registered "disk" (some 1) (some 1) Sample.reg rfl
  exact ⟨h.1.2 (by simp [Sample.reg, GoMap.keys]),
    h.2.2.2.2 (by simp [Sample.reg, GoMap.keys])⟩

/-- C2: with the mutex free at the call, `CreateStorage` for a type name that
is not a key of the storage table returns, in the unchanged state, the nil
storage and the error whose text is `Storage type`, the quoted type name and
`not known or loaded`; `CreateHandler` likewise for the handler table.  The
call returns (no panic) and its outcome does not depend on the code of any
constructor: none is invoked. -/
theorem create_unregistered
    (storageCode : SC → L → O → Registry SC HC X →
      Outcome (Registry SC HC X) (Option S × Option GoError))
    (handlerCode : HC → L → O → Registry SC HC X →
      Outcome (Registry SC HC X) (Option H × Option GoError))
    (quote : String → String) (typS typH : String) (loader : L) (config : O)
    (s t : Registry SC HC X) (hs : s.mapLock = false) (ht : t.mapLock = false)
    (hS : typS ∉ s.storageConstructors.keys) (hH : typH ∉ t.handlerConstructors.keys) :
    CreateStorage storageCode quote typS loader config s =
      .ret s (none, some (.text ("Storage type " ++ quote typS ++ " not known or loaded"))) ∧
    CreateHandler handlerCode quote typH loader config t =
      .ret t (none,
        some (.text ("blobserver: Handler type " ++ quote typH ++ " not known or loaded"))) := by
  rw [← GoMap.get?_eq_none_iff] at hS hH
  rw [CreateStorage_free storageCode quote typS loader config s hs,
    CreateHandler_free handlerCode quote typH loader config t ht, hS, hH]
  exact ⟨rfl, rfl⟩

/-- Witness of C2 on the sample state, where `"s3"` is in neither table. -/
theorem create_unregistered_witness :
    CreateStorage Sample.storageCode Sample.quote "s3" "loader" "cfg" Sample.reg =
      .ret Sample.reg (none, some (.text "Storage type \"s3\" not known or loaded")) ∧
    CreateHandler Sample.handlerCode Sample.quote "s3" "loader" "cfg" Sample.reg =
      .ret Sample.reg (none,
        some (.text "blobserver: Handler type \"s3\" not known or loaded")) := by
  have h := create_unregistered Sample.storageCode Sample.handlerCode Sample.quote
    "s3" "s3" "loader" "cfg" Sample.reg Sample.reg rfl rfl
    (by simp [Sample.reg, GoMap.keys]) (by simp [Sample.reg, GoMap.keys])
  exact h

/-- C3: with the mutex free at the call and `typ` bound to the constructor `c`
in the storage table, `CreateStorage(typ, loader, config)` is exactly the call
`c(loader, config)`, made once in the state in which `CreateStorage` was
entered: same loader, same configuration, and whatever the constructor
returns, its error included, is returned as it is.  `CreateHandler` likewise
for the handler table. -/
theorem create_registered
    (storageCode : SC → L → O → Registry SC HC X →
      Outcome (Registry SC HC X) (Option S × Option GoError))
    (handlerCode : HC → L → O → Registry SC HC X →
      Outcome (Registry SC HC X) (Option H × Option GoError))
    (quote : String → String) (typS typH : String) (cS : SC) (cH : HC)
    (loader : L) (config : O) (s t : Registry SC HC X)
    (hs : s.mapLock = false) (ht : t.mapLock = false)
    (hS : s.storageConstructors.get? typS = some (some cS))
    (hH : t.handlerConstructors.get? typH = some (some cH)) :
    CreateStorage storageCode quote typS loader config s = storageCode cS loader config s ∧
    CreateHandler handlerCode quote typH loader config t = handlerCode cH loader config t := by
  rw [CreateStorage_free storageCode quote typS loader config s hs,
    CreateHandler_free handlerCode quote typH loader config t ht, hS, hH]
  exact ⟨rfl, rfl⟩

/-- Witness of C3 on the sample state: the storage constructor of `"disk"` and
the handler constructor of `"ui"` are each called once (the call counter goes
from 0 to 1) with the configuration passed in, and the error of a failing
constructor comes back as it is. -/
theorem create_registered_witness :
    CreateStorage Sample.storageCode Sample.quote "disk" "loader" "cfg" Sample.reg =
      .ret { Sample.reg with rest := 1 } (some "cfg", none) ∧
    CreateHandler Sample.handlerCode Sample.quote "bad" "loader" "cfg"
        { Sample.reg with handlerConstructors := [("bad", some 1)] } =
      .ret { Sample.reg with handlerConstructors := [("bad", some 1)], rest := 1 }
        (none, some (.text "bad config")) := by
  have h := create_registered Sample.storageCode Sample.handlerCode Sample.quote
    "disk" "bad" 0 1 "loader" "cfg" Sample.reg
    { Sample.reg with handlerConstructors := [("bad", some 1)] } rfl rfl
    (by simp [Sample.reg, GoMap.get?]) (by simp [GoMap.get?])
  exact h

/-- C4: a binding is never overwritten or removed.  Once
`RegisterStorageConstructor(typ, c)` has returned normally, after every
finite sequence of further calls of the four functions (registrations in
either table, those that panic being recovered, and constructions, whose
constructors reach the registry through its functions only), `typ` is still
bound to `c` in the storage table and `CreateStorage(typ, l, cfg)` is still
the call `c(l, cfg)`.  `RegisterHandlerConstructor` and `CreateHandler`
likewise. -/
theorem binding_persists
    (storageCode : SC → L → O → Registry SC HC X →
      Outcome (Registry SC HC X) (Option S × Option GoError))
    (handlerCode : HC → L → O → Registry SC HC X →
      Outcome (Registry SC HC X) (Option H × Option GoError))
    (hS : ThroughRegistry storageCode) (hH : ThroughRegistry handlerCode)
    (quote : String → String) (typ : String) (cs : Option SC) (ch : Option HC)
    (s0 s1 s2 t0 t1 t2 : Registry SC HC X) (opsS opsH : List (RegistryOp SC HC L O))
    (loader : L) (config : O)
    (hregS : RegisterStorageConstructor typ cs s0 = .ret s1 ())
    (hopsS : runOps storageCode handlerCode quote opsS s1 = some s2)
    (hregH : RegisterHandlerConstructor typ ch t0 = .ret t1 ())
    (hopsH : runOps storageCode handlerCode quote opsH t1 = some t2) :
    (s2.storageConstructors.get? typ = some cs ∧
      CreateStorage storageCode quote typ loader config s2 =
        callFunc storageCode cs loader config s2) ∧
    (t2.handlerConstructors.get? typ = some ch ∧
      CreateHandler handlerCode quote typ loader config t2 =
        callFunc handlerCode ch loader config t2) := by
  have h1 := RegisterStorageConstructor_ret typ cs s0 s1 hregS
  have h2 := runOps_extends storageCode handlerCode hS hH quote opsS s1 s2 hopsS
  have h3 := RegisterHandlerConstructor_ret typ ch t0 t1 hregH
  have h4 := runOps_extends storageCode handlerCode hS hH quote opsH t1 t2 hopsH
  have b1 := h2.2.1 typ cs h1.2
  have b2 := h4.2.2 typ ch h3.2
  refine ⟨⟨b1, ?_⟩, ⟨b2, ?_⟩⟩
  · rw [CreateStorage_free storageCode quote typ loader config s2 (h2.1 h1.1), b1]
  · rw [CreateHandler_free handlerCode quote typ loader config t2 (h4.1 h3.1), b2]

/-- Witness of C4 on the sample state: `"s3"` is registered with constructor 1
and `Sample.ops` follow; `"s3"` is still bound to constructor 1. -/
theorem binding_persists_witness :
    ({ mapLock := false
       storageConstructors :=
         [("disk", some 0), ("hook", some 2), ("s3", some 1), ("mem", some 0), ("late", some 0)]
       handlerConstructors := [("ui", some 0), ("hook", some 2), ("s3", some 2)]
       rest := 1 } : Sample.Reg).storageConstructors.get? "s3" = some (some 1) := by
  have h := binding_persists Sample.storageCode Sample.handlerCode
    Sample.storageCode_through Sample.handlerCode_through Sample.quote "s3" (some 1) (some 1)
    Sample.reg
    { Sample.reg with storageConstructors := [("disk", some 0), ("hook", some 2), ("s3", some 1)] }
    { mapLock := false
      storageConstructors :=
        [("disk", some 0), ("hook", some 2), ("s3", some 1), ("mem", some 0), ("late", some 0)]
      handlerConstructors := [("ui", some 0), ("hook", some 2), ("s3", some 2)]
      rest := 1 }
    Sample.reg
    { Sample.reg with handlerConstructors := [("ui", some 0), ("hook", some 2), ("s3", some 1)] }
    { Sample.reg with handlerConstructors := [("ui", some 0), ("hook", some 2), ("s3", some 1)] }
    Sample.ops [] "loader" "cfg" rfl rfl rfl rfl
  exact h.1.1

/-- C5: registering different type names never conflicts.  For every list of
(type name, constructor) pairs with pairwise distinct type names, the calls of
`RegisterStorageConstructor` made one after another from a state with an empty
storage table all return (none panics), and afterwards every type name of the
list is bound to its own constructor, so that `CreateStorage` on it is the
call of that constructor.  `RegisterHandlerConstructor` likewise. -/
theorem register_distinct_names
    (pairsS : List (String × Option SC)) (pairsH : List (String × Option HC))
    (s t : Registry SC HC X)
    (hs : s.mapLock = false) (hsE : s.storageConstructors = [])
    (hdS : (pairsS.map Prod.fst).Nodup)
    (ht : t.mapLock = false) (htE : t.handlerConstructors = [])
    (hdH : (pairsH.map Prod.fst).Nodup) :
    (∃ s', registerStorageAll pairsS s = .ret s' () ∧
      ∀ p ∈ pairsS, s'.storageConstructors.get? p.1 = some p.2 ∧
        ∀ (storageCode : SC → L → O → Registry SC HC X →
            Outcome (Registry SC HC X) (Option S × Option GoError))
          (quote : String → String) (loader : L) (config : O),
          CreateStorage storageCode quote p.1 loader config s' =
            callFunc storageCode p.2 loader config s') ∧
    (∃ t', registerHandlerAll pairsH t = .ret t' () ∧
      ∀ p ∈ pairsH, t'.handlerConstructors.get? p.1 = some p.2 ∧
        ∀ (handlerCode : HC → L → O → Registry SC HC X →
            Outcome (Registry SC HC X) (Option H × Option GoError))
          (quote : String → String) (loader : L) (config : O),
          CreateHandler handlerCode quote p.1 loader config t' =
            callFunc handlerCode p.2 loader config t') := by
  constructor
  · obtain ⟨s', hrun, _, hl, hb⟩ :=
      registerStorageAll_fresh pairsS s hs hdS (by simp [hsE, GoMap.keys])
    refine ⟨s', hrun, fun p hp => ⟨hb p hp, fun code quote loader config => ?_⟩⟩
    rw [CreateStorage_free code quote p.1 loader config s' hl, hb p hp]
  · obtain ⟨t', hrun, _, hl, hb⟩ :=
      registerHandlerAll_fresh pairsH t ht hdH (by simp [htE, GoMap.keys])
    refine ⟨t', hrun, fun p hp => ⟨hb p hp, fun code quote loader config => ?_⟩⟩
    rw [CreateHandler_free code quote p.1 loader config t' hl, hb p hp]

/-- Witness of C5: three storage types and two handler types registered into
the empty registry. -/
theorem register_distinct_names_witness :
    (∃ s', registerStorageAll [("disk", some 0), ("mem", some 1), ("s3", none)]
        Sample.empty = .ret s' () ∧
      ∀ p ∈ [("disk", some 0), ("mem", some 1), ("s3", none)],
        s'.storageConstructors.get? p.1 = some p.2 ∧
        ∀ (storageCode : Nat → String → String → Sample.Reg →
            Outcome Sample.Reg (Option String × Option GoError))
          (quote : String → String) (loader : String) (config : String),
          CreateStorage storageCode quote p.1 loader config s' =
            callFunc storageCode p.2 loader config s') ∧
    (∃ t', registerHandlerAll [("ui", some 0), ("sync", some 1)] Sample.empty = .ret t' () ∧
      ∀ p ∈ [("ui", some 0), ("sync", some 1)],
        t'.handlerConstructors.get? p.1 = some p.2 ∧
        ∀ (handlerCode : Nat → String → String → Sample.Reg →
            Outcome Sample.Reg (Option String × Option GoError))
          (quote : String → String) (loader : String) (config : String),
          CreateHandler handlerCode quote p.1 loader config t' =
            callFunc handlerCode p.2 loader config t') :=
  register_distinct_names [("disk", some 0), ("mem", some 1), ("s3", none)]
    [("ui", some 0), ("sync", some 1)] Sample.empty Sample.empty rfl rfl (by decide)
    rfl rfl (by decide)

/-- C6: the two tables are independent.  The state in which
`RegisterStorageConstructor` ends has the handler table it started with, and
the state in which `RegisterHandlerConstructor` ends has the storage table it
started with.  Hence, the mutex being free, a type name that is in neither
table can be registered in both, in either order, without a panic; and once
registered as a storage type only it is still unknown to `CreateHandler`, once
registered as a handler type only still unknown to `CreateStorage`. -/
theorem tables_independent
    (storageCode : SC → L → O → Registry SC HC X →
      Outcome (Registry SC HC X) (Option S × Option GoError))
    (handlerCode : HC → L → O → Registry SC HC X →
      Outcome (Registry SC HC X) (Option H × Option GoError))
    (quote : String → String) (typ : String) (cs : Option SC) (ch : Option HC)
    (loader : L) (config : O) (s : Registry SC HC X) (h : s.mapLock = false)
    (hS : typ ∉ s.storageConstructors.keys) (hH : typ ∉ s.handlerConstructors.keys) :
    (∀ (t t' : Registry SC HC X) (typ' : String) (c : Option SC),
      (RegisterStorageConstructor typ' c t).state? = some t' →
      t'.handlerConstructors = t.handlerConstructors) ∧
    (∀ (t t' : Registry SC HC X) (typ' : String) (c : Option HC),
      (RegisterHandlerConstructor typ' c t).state? = some t' →
      t'.storageConstructors = t.storageConstructors) ∧
    (∃ s1 s2, RegisterStorageConstructor typ cs s = .ret s1 () ∧
      RegisterHandlerConstructor typ ch s1 = .ret s2 () ∧
      s2.storageConstructors.get? typ = some cs ∧ s2.handlerConstructors.get? typ = some ch) ∧
    (∃ s1 s2, RegisterHandlerConstructor typ ch s = .ret s1 () ∧
      RegisterStorageConstructor typ cs s1 = .ret s2 () ∧
      s2.storageConstructors.get? typ = some cs ∧ s2.handlerConstructors.get? typ = some ch) ∧
    (∃ s1, RegisterStorageConstructor typ cs s = .ret s1 () ∧
      CreateHandler handlerCode quote typ loader config s1 =
        .ret s1 (none,
          some (.text ("blobserver: Handler type " ++ quote typ ++ " not known or loaded")))) ∧
    (∃ s1, RegisterHandlerConstructor typ ch s = .ret s1 () ∧
      CreateStorage storageCode quote typ loader config s1 =
        .ret s1 (none, some (.text ("Storage type " ++ quote typ ++ " not known or loaded")))) := by
  rw [← GoMap.get?_eq_none_iff] at hS hH
  have r1 := RegisterStorageConstructor_free typ cs s h
  have r2 := RegisterHandlerConstructor_free typ ch s h
  simp only [hS] at r1
  simp only [hH] at r2
  refine ⟨fun t t' typ' c ht => RegisterStorageConstructor_frame typ' c t t' ht,
    fun t t' typ' c ht => RegisterHandlerConstructor_frame typ' c t t' ht,
    ⟨_, { s with storageConstructors := s.storageConstructors.set typ cs
                 handlerConstructors := s.handlerConstructors.set typ ch }, r1, ?_, ?_, ?_⟩,
    ⟨_, { s with storageConstructors := s.storageConstructors.set typ cs
                 handlerConstructors := s.handlerConstructors.set typ ch }, r2, ?_, ?_, ?_⟩,
    ⟨_, r1, ?_⟩, ⟨_, r2, ?_⟩⟩
  · rw [RegisterHandlerConstructor_free typ ch
      { s with storageConstructors := s.storageConstructors.set typ cs } h]
    simp only [hH]
  · exact GoMap.get?_set_self _ _ _
  · exact GoMap.get?_set_self _ _ _
  · rw [RegisterStorageConstructor_free typ cs
      { s with handlerConstructors := s.handlerConstructors.set typ ch } h]
    simp only [hS]
  · exact GoMap.get?_set_self _ _ _
  · exact GoMap.get?_set_self _ _ _
  · rw [CreateHandler_free handlerCode quote typ loader config
      { s with storageConstructors := s.storageConstructors.set typ cs } h]
    simp only [hH]
    rfl
  · rw [CreateStorage_free storageCode quote typ loader config
      { s with handlerConstructors := s.handlerConstructors.set typ ch } h]
    simp only [hS]
    rfl

/-- Witness of C6 on the sample state: `"s3"` registered as a storage type
only is unknown to `CreateHandler`. -/
theorem tables_independent_witness :
    ∃ s1, RegisterStorageConstructor "s3" (some 1) Sample.reg = .ret s1 () ∧
      CreateHandler Sample.handlerCode Sample.quote "s3" "loader" "cfg" s1 =
        .ret s1 (none,
          some (.text ("blobserver: Handler type " ++ Sample.quote "s3" ++
            " not known or loaded"))) :=
  (tables_independent Sample.storageCode Sample.handlerCode Sample.quote "s3" (some 1) (some 1)
    "loader" "cfg" Sample.reg rfl (by simp [Sample.reg, GoMap.keys])
    (by simp [Sample.reg, GoMap.keys])).2.2.2.2.1

/-- Counterexample to C7 as stated: on the sample state, `CreateStorage` of the
type `"hook"`, whose constructor registers the storage type `"late"`, returns
with a storage table that has one more binding; `CreateHandler` of the handler
type `"hook"` does the same to the handler table. -/
theorem create_not_read_only :
    CreateStorage Sample.storageCode Sample.quote "hook" "loader" "cfg" Sample.reg =
      .ret { Sample.reg with
             storageConstructors := [("disk", some 0), ("hook", some 2), ("late", some 0)]
             rest := 1 } (some "loader", none) ∧
    [("disk", some 0), ("hook", some 2), ("late", some 0)] ≠ Sample.reg.storageConstructors ∧
    CreateHandler Sample.handlerCode Sample.quote "hook" "loader" "cfg" Sample.reg =
      .ret { Sample.reg with
             handlerConstructors := [("ui", some 0), ("hook", some 2), ("late", some 0)]
             rest := 1 } (some "loader", none) ∧
    [("ui", some 0), ("hook", some 2), ("late", some 0)] ≠ Sample.reg.handlerConstructors := by
  refine ⟨rfl, ?_, rfl, ?_⟩ <;> simp [Sample.reg]

/-- C7, amended: `CreateStorage` and `CreateHandler` write neither table
themselves.  A call that waits for the mutex, a call for a type that is not
registered and a call for a type bound to the nil function end in exactly the
state they were entered in, both tables included.  A call for a type bound to a
constructor is exactly the call of that constructor made in the state in which
`CreateStorage` was entered, so the state at the end, tables included, is the
one the constructor leaves; both tables are therefore as they were whenever the
constructor invoked leaves them as they were. -/
theorem create_writes_no_table
    (storageCode : SC → L → O → Registry SC HC X →
      Outcome (Registry SC HC X) (Option S × Option GoError))
    (handlerCode : HC → L → O → Registry SC HC X →
      Outcome (Registry SC HC X) (Option H × Option GoError))
    (quote : String → String) (typS typH : String) (loader : L) (config : O)
    (s t : Registry SC HC X) :
    ((s.mapLock = true → CreateStorage storageCode quote typS loader config s = .blocked s) ∧
      (s.mapLock = false → s.storageConstructors.get? typS = none →
        CreateStorage storageCode quote typS loader config s =
          .ret s (none, some (fmtErrorfQ quote "Storage type " " not known or loaded" typS))) ∧
      (s.mapLock = false → s.storageConstructors.get? typS = some none →
        CreateStorage storageCode quote typS loader config s =
          .panic s "runtime error: invalid memory address or nil pointer dereference") ∧
      (s.mapLock = false → ∀ c, s.storageConstructors.get? typS = some (some c) →
        CreateStorage storageCode quote typS loader config s = storageCode c loader config s) ∧
      (∀ s', (CreateStorage storageCode quote typS loader config s).state? = some s' →
        (∀ c u, s.storageConstructors.get? typS = some (some c) →
          (storageCode c loader config s).state? = some u →
          u.storageConstructors = s.storageConstructors ∧
            u.handlerConstructors = s.handlerConstructors) →
        s'.storageConstructors = s.storageConstructors ∧
          s'.handlerConstructors = s.handlerConstructors)) ∧
    ((t.mapLock = true → CreateHandler handlerCode quote typH loader config t = .blocked t) ∧
      (t.mapLock = false → t.handlerConstructors.get? typH = none →
        CreateHandler handlerCode quote typH loader config t =
          .ret t (none,
            some (fmtErrorfQ quote "blobserver: Handler type " " not known or loaded" typH))) ∧
      (t.mapLock = false → t.handlerConstructors.get? typH = some none →
        CreateHandler handlerCode quote typH loader config t =
          .panic t "runtime error: invalid memory address or nil pointer dereference") ∧
      (t.mapLock = false → ∀ c, t.handlerConstructors.get? typH = some (some c) →
        CreateHandler handlerCode quote typH loader config t = handlerCode c loader config t) ∧
      (∀ t', (CreateHandler handlerCode quote typH loader config t).state? = some t' →
        (∀ c u, t.handlerConstructors.get? typH = some (some c) →
          (handlerCode c loader config t).state? = some u →
          u.storageConstructors = t.storageConstructors ∧
            u.handlerConstructors = t.handlerConstructors) →
        t'.storageConstructors = t.storageConstructors ∧
          t'.handlerConstructors = t.handlerConstructors)) := by
  constructor
  · refine ⟨CreateStorage_locked storageCode quote typS loader config s, ?_, ?_, ?_, ?_⟩
    · intro hl hg
      rw [CreateStorage_free storageCode quote typS loader config s hl, hg]
    · intro hl hg
      rw [CreateStorage_free storageCode quote typS loader config s hl, hg]
      rfl
    · intro hl c hg
      rw [CreateStorage_free storageCode quote typS loader config s hl, hg]
      rfl
    · intro s' hs' hctor
      cases hl : s.mapLock with
      | true =>
        rw [CreateStorage_locked storageCode quote typS loader config s hl] at hs'
        simp only [Outcome.state?, Option.some.injEq] at hs'
        rw [← hs']
        exact ⟨rfl, rfl⟩
      | false =>
        rw [CreateStorage_free storageCode quote typS loader config s hl] at hs'
        cases hg : GoMap.get? s.storageConstructors typS with
        | none =>
          simp only [hg, Outcome.state?, Option.some.injEq] at hs'
          rw [← hs']
          exact ⟨rfl, rfl⟩
        | some ctor =>
          cases ctor with
          | none =>
            simp only [hg, callFunc, Outcome.state?, Option.some.injEq] at hs'
            rw [← hs']
            exact ⟨rfl, rfl⟩
          | some c =>
            simp only [hg, callFunc] at hs'
            exact hctor c s' hg hs'
  · refine ⟨CreateHandler_locked handlerCode quote typH loader config t, ?_, ?_, ?_, ?_⟩
    · intro hl hg
      rw [CreateHandler_free handlerCode quote typH loader config t hl, hg]
    · intro hl hg
      rw [CreateHandler_free handlerCode quote typH loader config t hl, hg]
      rfl
    · intro hl c hg
      rw [CreateHandler_free handlerCode quote typH loader config t hl, hg]
      rfl
    · intro t' ht' hctor
      cases hl : t.mapLock with
      | true =>
        rw [CreateHandler_locked handlerCode quote typH loader config t hl] at ht'
        simp only [Outcome.state?, Option.some.injEq] at ht'
        rw [← ht']
        exact ⟨rfl, rfl⟩
      | false =>
        rw [CreateHandler_free handlerCode quote typH loader config t hl] at ht'
        cases hg : GoMap.get? t.handlerConstructors typH with
        | none =>
          simp only [hg, Outcome.state?, Option.some.injEq] at ht'
          rw [← ht']
          exact ⟨rfl, rfl⟩
        | some ctor =>
          cases ctor with
          | none =>
            simp only [hg, callFunc, Outcome.state?, Option.some.injEq] at ht'
            rw [← ht']
            exact ⟨rfl, rfl⟩
          | some c =>
            simp only [hg, callFunc] at ht'
            exact hctor c t' hg ht'

/-- Witness of the amended C7 on the sample state: `CreateStorage` of `"hook"`
is the call of constructor 2, which registers `"late"`, and ends in the state
that constructor leaves; `CreateHandler` of the unknown type `"nope"` ends in
the sample state. -/
theorem create_writes_no_table_witness :
    CreateStorage Sample.storageCode Sample.quote "hook" "loader" "cfg" Sample.reg =
      Sample.storageCode 2 "loader" "cfg" Sample.reg ∧
    (Sample.storageCode 2 "loader" "cfg" Sample.reg).state? =
      some { Sample.reg with
             storageConstructors := [("disk", some 0), ("hook", some 2), ("late", some 0)]
             rest := 1 } ∧
    CreateHandler Sample.handlerCode Sample.quote "nope" "loader" "cfg" Sample.reg =
      .ret Sample.reg (none,
        some (fmtErrorfQ Sample.quote "blobserver: Handler type " " not known or loaded"
          "nope")) :=
  have h := create_writes_no_table Sample.storageCode Sample.handlerCode Sample.quote
    "hook" "nope" "loader" "cfg" Sample.reg Sample.reg
  ⟨h.1.2.2.2.1 rfl 2 rfl, rfl, h.2.2.1 rfl rfl⟩

/-- C8: the mutex is held around the table read only, never across the
constructor call.  `CreateStorage` and `CreateHandler` take the mutex first: a
call made while it is held waits in `Lock`, neither reading the table nor
calling a constructor.  Made with the mutex free, the call locks it, reads the
table in the locked state, unlocks it, and only then, in the state whose
`mapLock` is free again, calls the constructor or returns the not-found error.
In that state a call of `RegisterStorageConstructor` or
`RegisterHandlerConstructor` made by the constructor does not block, and a
call of `CreateStorage` or `CreateHandler` gets past `Lock`: it can only block
inside the constructor it calls in turn.  In the locked state, in which the
table was read, each of the four functions would block. -/
theorem lock_released_before_constructor
    (storageCode : SC → L → O → Registry SC HC X →
      Outcome (Registry SC HC X) (Option S × Option GoError))
    (handlerCode : HC → L → O → Registry SC HC X →
      Outcome (Registry SC HC X) (Option H × Option GoError))
    (quote : String → String) (typ : String) (loader : L) (config : O)
    (s : Registry SC HC X) :
    (s.mapLock = true →
      CreateStorage storageCode quote typ loader config s = .blocked s ∧
      CreateHandler handlerCode quote typ loader config s = .blocked s) ∧
    (s.mapLock = false →
      mapLock_Lock s = .ret { s with mapLock := true } () ∧
      mapLock_Unlock { s with mapLock := true } = .ret { s with mapLock := false } () ∧
      (CreateStorage storageCode quote typ loader config s =
        match ({ s with mapLock := true } : Registry SC HC X).storageConstructors.get? typ with
        | none =>
          .ret { s with mapLock := false }
            (none, some (fmtErrorfQ quote "Storage type " " not known or loaded" typ))
        | some ctor => callFunc storageCode ctor loader config { s with mapLock := false }) ∧
      (CreateHandler handlerCode quote typ loader config s =
        match ({ s with mapLock := true } : Registry SC HC X).handlerConstructors.get? typ with
        | none =>
          .ret { s with mapLock := false }
            (none,
              some (fmtErrorfQ quote "blobserver: Handler type " " not known or loaded" typ))
        | some ctor => callFunc handlerCode ctor loader config { s with mapLock := false }) ∧
      (∀ (typ' : String) (c : Option SC),
        ¬ (RegisterStorageConstructor typ' c { s with mapLock := false }).Blocks) ∧
      (∀ (typ' : String) (c : Option HC),
        ¬ (RegisterHandlerConstructor typ' c { s with mapLock := false }).Blocks) ∧
      (∀ (typ' : String) (loader' : L) (config' : O),
        (CreateStorage storageCode quote typ' loader' config'
          { s with mapLock := false }).Blocks →
        ∃ ctor, s.storageConstructors.get? typ' = some ctor ∧
          (callFunc storageCode ctor loader' config' { s with mapLock := false }).Blocks) ∧
      (∀ (typ' : String) (loader' : L) (config' : O),
        (CreateHandler handlerCode quote typ' loader' config'
          { s with mapLock := false }).Blocks →
        ∃ ctor, s.handlerConstructors.get? typ' = some ctor ∧
          (callFunc handlerCode ctor loader' config' { s with mapLock := false }).Blocks) ∧
      (∀ (typ' : String) (c : Option SC),
        RegisterStorageConstructor typ' c { s with mapLock := true } =
          .blocked { s with mapLock := true }) ∧
      (∀ (typ' : String) (c : Option HC),
        RegisterHandlerConstructor typ' c { s with mapLock := true } =
          .blocked { s with mapLock := true }) ∧
      (∀ (typ' : String) (loader' : L) (config' : O),
        CreateStorage storageCode quote typ' loader' config' { s with mapLock := true } =
          .blocked { s with mapLock := true }) ∧
      (∀ (typ' : String) (loader' : L) (config' : O),
        CreateHandler handlerCode quote typ' loader' config' { s with mapLock := true } =
          .blocked { s with mapLock := true })) := by
  refine ⟨fun hl => ⟨CreateStorage_locked storageCode quote typ loader config s hl,
    CreateHandler_locked handlerCode quote typ loader config s hl⟩, fun h => ?_⟩
  have hs : ({ s with mapLock := false } : Registry SC HC X) = s := by
    obtain ⟨lk, st, hd, x⟩ := s
    simp only at h
    subst h
    rfl
  rw [hs]
  refine ⟨by simp [mapLock_Lock, h], by simpa [mapLock_Unlock] using hs,
    CreateStorage_free storageCode quote typ loader config s h,
    CreateHandler_free handlerCode quote typ loader config s h, ?_, ?_, ?_, ?_,
    fun typ' c => RegisterStorageConstructor_locked typ' c _ rfl,
    fun typ' c => RegisterHandlerConstructor_locked typ' c _ rfl,
    fun typ' loader' config' => CreateStorage_locked storageCode quote typ' loader' config' _ rfl,
    fun typ' loader' config' =>
      CreateHandler_locked handlerCode quote typ' loader' config' _ rfl⟩
  · intro typ' c
    rw [RegisterStorageConstructor_free typ' c s h]
    cases GoMap.get? s.storageConstructors typ' <;> simp [Outcome.Blocks]
  · intro typ' c
    rw [RegisterHandlerConstructor_free typ' c s h]
    cases GoMap.get? s.handlerConstructors typ' <;> simp [Outcome.Blocks]
  · intro typ' loader' config' hb
    rw [CreateStorage_free storageCode quote typ' loader' config' s h] at hb
    cases hg : GoMap.get? s.storageConstructors typ' with
    | none => simp [hg, Outcome.Blocks] at hb
    | some ctor =>
      simp only [hg] at hb
      exact ⟨ctor, rfl, hb⟩
  · intro typ' loader' config' hb
    rw [CreateHandler_free handlerCode quote typ' loader' config' s h] at hb
    cases hg : GoMap.get? s.handlerConstructors typ' with
    | none => simp [hg, Outcome.Blocks] at hb
    | some ctor =>
      simp only [hg] at hb
      exact ⟨ctor, rfl, hb⟩

/-- Witness of C8 on the sample state: the constructor of the storage type
`"hook"`, which calls `RegisterStorageConstructor` itself, is called with the
mutex free and its registration of `"late"` does not block; in the state with
the mutex held that registration blocks, and so does `CreateStorage`. -/
theorem lock_released_before_constructor_witness :
    CreateStorage Sample.storageCode Sample.quote "hook" "loader" "cfg" Sample.reg =
      callFunc Sample.storageCode (some 2) "loader" "cfg" { Sample.reg with mapLock := false } ∧
    ¬ (RegisterStorageConstructor "late" (some 0)
        ({ Sample.reg with mapLock := false } : Sample.Reg)).Blocks ∧
    RegisterStorageConstructor "late" (some 0) ({ Sample.reg with mapLock := true } : Sample.Reg) =
      .blocked { Sample.reg with mapLock := true } ∧
    CreateStorage Sample.storageCode Sample.quote "hook" "loader" "cfg"
        { Sample.reg with mapLock := true } = .blocked { Sample.reg with mapLock := true } :=
  have h := (lock_released_before_constructor Sample.storageCode Sample.handlerCode
    Sample.quote "hook" "loader" "cfg" Sample.reg).2 rfl
  have hheld := (lock_released_before_constructor Sample.storageCode Sample.handlerCode
    Sample.quote "hook" "loader" "cfg" { Sample.reg with mapLock := true }).1 rfl
  ⟨h.2.2.1, h.2.2.2.2.1 "late" (some 0), h.2.2.2.2.2.2.2.2.1 "late" (some 0), hheld.1⟩

/-- Counterexample to C9 as stated: in the sample configuration `lenientCycle`
the constructor of `"/a/"` calls `GetHandler("/b/")` and the constructor of
`"/b/"` calls `GetHandler("/a/")`, but the latter goes on when its call fails.
`GetHandler("/a/")` then returns the handler of `"/a/"` with the nil error for
every bound of at least 3 on the depth of nested constructions, and the cycle
error for no bound at all. -/
theorem getHandler_lenient_cycle :
    (∃ k, Sample.refCtor (fun n => "handler at " ++ n) (LoaderHandle.mk "/a/") "/b/" =
      Body.getHandler "/b/" k) ∧
    (∃ k, Sample.lenientCtor (LoaderHandle.mk "/b/") "/a/" = Body.getHandler "/a/" k) ∧
    (∀ n, ∃ w', GetHandler Sample.isStorageType Sample.quote (n + 3) "/a/" Sample.lenientCycle =
      .ret w' (some (.inr "handler at /a/"), none)) ∧
    (∀ fuel, ¬ ∃ w' chain,
      GetHandler Sample.isStorageType Sample.quote fuel "/a/" Sample.lenientCycle =
        .ret w' (none, some (.cycle chain))) := by
  have hrun : ∀ n, ∃ w',
      GetHandler Sample.isStorageType Sample.quote (n + 3) "/a/" Sample.lenientCycle =
        .ret w' (some (.inr "handler at /a/"), none) := fun _ => ⟨_, rfl⟩
  refine ⟨⟨_, rfl⟩, ⟨_, rfl⟩, hrun, ?_⟩
  rintro fuel ⟨w', chain, h⟩
  rcases fuel with _ | _ | _ | n
  · have h0 : GetHandler Sample.isStorageType Sample.quote 0 "/a/" Sample.lenientCycle =
        .exhausted := rfl
    rw [h0] at h
    cases h
  · have h1 : GetHandler Sample.isStorageType Sample.quote 1 "/a/" Sample.lenientCycle =
        .exhausted := rfl
    rw [h1] at h
    cases h
  · have h2 : GetHandler Sample.isStorageType Sample.quote 2 "/a/" Sample.lenientCycle =
        .exhausted := rfl
    rw [h2] at h
    cases h
  · obtain ⟨w0, h3⟩ := hrun n
    rw [h3] at h
    cases h

/-- C9, amended: `GetHandler` on a name that is under construction is answered
by the cycle error at once, in the unchanged state, whatever the constructors
do.  Hence, in a Loader where `a` and `b` are declared, the constructor of `a`
begins by asking the Loader for `b`, the constructor of `b` begins by asking it
for `a`, and each fails with the error of what it asked for, `GetHandler(a)`
returns, for every bound of at least 3 on the depth of nested constructions,
the nil instance and the cycle error naming the chain `a`, `b`, `a`; both
instances are then `Failed` and the construction stack is what it was. -/
theorem getHandler_cycle [Inhabited O] (isStorageType : String → Bool)
    (quote : String → String) (w : World O S H) (a b : String) (fuel : Nat)
    (hfuel : 3 ≤ fuel) (hab : a ≠ b) (hl : w.mapLock = false)
    (ha : (w.rest.entry a).status = .Declared) (hb : (w.rest.entry b).status = .Declared)
    (hA : DependsOn isStorageType w a b) (hB : DependsOn isStorageType w b a) :
    (∃ w', GetHandler isStorageType quote fuel a w =
        .ret w' (none, some (.cycle [a, b, a])) ∧
      (w'.rest.entry a).status = .Failed ∧ (w'.rest.entry b).status = .Failed ∧
      w'.rest.stack = w.rest.stack) ∧
    (∀ (depth : Nat) (name : String) (v : World O S H),
      (v.rest.entry name).status = .Constructing →
      GetHandler isStorageType quote (depth + 1) name v =
        .ret v (none, some (.cycle (cycleChain v.rest.stack name)))) := by
  obtain ⟨n, rfl⟩ : ∃ n, fuel = n + 3 := ⟨fuel - 3, by omega⟩
  have hba : b ≠ a := fun e => hab e.symm
  -- the construction of `a` begins, then that of `b`
  have hb1 : (LoaderState.entry (w.rest.begin a) b).status = .Declared := by
    simp only [LoaderState.begin, LoaderState.entry_set_ne w.rest _ _ hab, hb]
  have ha2 : (LoaderState.entry ((w.rest.begin a).begin b) a).status = .Constructing := by
    rw [LoaderState.begin, LoaderState.entry_set_ne (w.rest.begin a) _ _ hba]
    simp only [LoaderState.begin, LoaderState.entry_set_self]
  have hchain : cycleChain ((w.rest.begin a).begin b).stack a = [a, b, a] := by
    simp [cycleChain, LoaderState.begin, List.takeWhile, hba]
  -- the inner call on `a` is answered by the cycle error
  have step1 : GetHandler isStorageType quote (n + 1) a
      (⟨w.mapLock, w.storageConstructors, w.handlerConstructors,
        (w.rest.begin a).begin b⟩ : World O S H) =
      .ret ⟨w.mapLock, w.storageConstructors, w.handlerConstructors,
        (w.rest.begin a).begin b⟩ (none, some (.cycle [a, b, a])) := by
    have h := GetHandler_constructing isStorageType quote n a
      (⟨w.mapLock, w.storageConstructors, w.handlerConstructors,
        (w.rest.begin a).begin b⟩ : World O S H) ha2
    rw [hchain] at h
    exact h
  -- the constructor of `b` fails with it
  have hB2 : DependsOn isStorageType
      (⟨w.mapLock, w.storageConstructors, w.handlerConstructors,
        (w.rest.begin a).begin b⟩ : World O S H) b a :=
    DependsOn_begin_self isStorageType
      (⟨w.mapLock, w.storageConstructors, w.handlerConstructors, w.rest.begin a⟩ : World O S H)
      b a (DependsOn_begin_other isStorageType w a b a hab hB)
  have step2 := construct_of_dependsOn isStorageType quote
    (fun m s => GetHandler isStorageType quote (n + 1) m s) b a
    (⟨w.mapLock, w.storageConstructors, w.handlerConstructors,
      (w.rest.begin a).begin b⟩ : World O S H) _ none _ hl hB2 step1
  have step3 : GetHandler isStorageType quote (n + 2) b
      (⟨w.mapLock, w.storageConstructors, w.handlerConstructors, w.rest.begin a⟩ :
        World O S H) =
      .ret ⟨w.mapLock, w.storageConstructors, w.handlerConstructors,
        ((w.rest.begin a).begin b).fail b (.cycle [a, b, a])⟩
        (none, some (.cycle [a, b, a])) := by
    have h := GetHandler_declared isStorageType quote (n + 1) b
      (⟨w.mapLock, w.storageConstructors, w.handlerConstructors, w.rest.begin a⟩ :
        World O S H) hb1
    rw [h]
    show Outcome.bind (construct isStorageType quote
      (fun m s => GetHandler isStorageType quote (n + 1) m s) b
      (⟨w.mapLock, w.storageConstructors, w.handlerConstructors,
        (w.rest.begin a).begin b⟩ : World O S H)) _ = _
    rw [step2]
    rfl
  -- and so does the constructor of `a`
  have hA1 : DependsOn isStorageType
      (⟨w.mapLock, w.storageConstructors, w.handlerConstructors, w.rest.begin a⟩ :
        World O S H) a b :=
    DependsOn_begin_self isStorageType w a b hA
  have step4 := construct_of_dependsOn isStorageType quote
    (fun m s => GetHandler isStorageType quote (n + 2) m s) a b
    (⟨w.mapLock, w.storageConstructors, w.handlerConstructors, w.rest.begin a⟩ : World O S H)
    _ none _ hl hA1 step3
  have step5 : GetHandler isStorageType quote (n + 3) a w =
      .ret ⟨w.mapLock, w.storageConstructors, w.handlerConstructors,
        (((w.rest.begin a).begin b).fail b (.cycle [a, b, a])).fail a (.cycle [a, b, a])⟩
        (none, some (.cycle [a, b, a])) := by
    rw [GetHandler_declared isStorageType quote (n + 2) a w ha]
    show Outcome.bind (construct isStorageType quote
      (fun m s => GetHandler isStorageType quote (n + 2) m s) a
      (⟨w.mapLock, w.storageConstructors, w.handlerConstructors, w.rest.begin a⟩ :
        World O S H)) _ = _
    rw [step4]
    rfl
  refine ⟨⟨_, step5, ?_, ?_, ?_⟩, fun depth name v hv =>
    GetHandler_constructing isStorageType quote depth name v hv⟩
  · simp only [LoaderState.fail, LoaderState.entry_set_self]
  · rw [LoaderState.fail, LoaderState.entry_set_ne _ _ _ hab]
    simp only [LoaderState.fail, LoaderState.entry_set_self]
  · simp [LoaderState.fail, LoaderState.begin]

/-- Witness of the amended C9 on the sample configuration in which `"/a/"`
refers to `"/b/"` and `"/b/"` to `"/a/"`, both constructors failing with the
error of what they asked for. -/
theorem getHandler_cycle_witness :
    ∃ w', GetHandler Sample.isStorageType Sample.quote 3 "/a/" Sample.cyclic =
        .ret w' (none, some (.cycle ["/a/", "/b/", "/a/"])) ∧
      (w'.rest.entry "/a/").status = .Failed ∧ (w'.rest.entry "/b/").status = .Failed ∧
      w'.rest.stack = Sample.cyclic.rest.stack :=
  (getHandler_cycle Sample.isStorageType Sample.quote Sample.cyclic "/a/" "/b/" 3
    (Nat.le_refl 3) (by decide) rfl rfl rfl
    (by
      unfold DependsOn
      rw [if_neg (by decide)]
      exact ⟨Sample.refCtor fun n => "handler at " ++ n, _, rfl, rfl, fun _ _ => rfl⟩)
    (by
      unfold DependsOn
      rw [if_neg (by decide)]
      exact ⟨Sample.refCtor fun n => "handler at " ++ n, _, rfl, rfl, fun _ _ => rfl⟩)).1

/-- Counterexample to C10 as stated: in the sample configuration `hollow` the
constructor of its only instance `"/ui/"` returns the nil handler with the nil
error.  `GetHandler("/ui/")` returns that pair and leaves every instance
`Constructed`; `FindHandlerByType` for the type of `"/ui/"` then answers the
name `"/ui/"` with the nil error and the nil handler. -/
theorem findHandlerByType_nil_after_construction :
    GetHandler Sample.isStorageType Sample.quote 1 "/ui/" Sample.hollow =
      .ret { Sample.hollow with
             rest := { entries := [("/ui/", { Sample.declared "hollow" "" with
                                             status := .Constructed })]
                       stack := [] } } (none, none) ∧
    (∀ p ∈ [("/ui/", { Sample.declared "hollow" "" with status := Status.Constructed })],
      p.2.status = .Constructed) ∧
    FindHandlerByType
        ({ entries := [("/ui/", { Sample.declared "hollow" "" with status := .Constructed })]
           stack := [] } : LoaderState String String String) "hollow" =
      ("/ui/", none, none) := by
  refine ⟨rfl, ?_, rfl⟩
  intro p hp
  rw [List.mem_singleton] at hp
  rw [hp]

/-- C10, amended: `FindHandlerByType(handlerType)`.  When an instance of that
type is configured, the answer has the nil error, the name of such an instance
and, if that instance is constructed, its handler; when none is, the error is
`ErrHandlerTypeNotFound`.  While the instance found is not yet constructed the
answer is its name with the nil handler and the nil error.  The call never
forces a construction: a constructor that makes it goes on in the state it made
it in, without `GetHandler` being consulted.  Once all instances are
constructed, a nil error comes with the name of a configured instance of the
type, which is not empty when no configured name is, and with the instance
cached for it; and the instance cached by a construction that succeeded is the
one its constructor returned, so the handler is nil only for a constructor that
returned the nil instance with the nil error. -/
theorem findHandlerByType_spec [Inhabited O] (ld : LoaderState O S H)
    (handlerType : String) :
    ((∃ p ∈ ld.entries, p.2.declaredType = handlerType) →
      ∃ p ∈ ld.entries, p.2.declaredType = handlerType ∧
        FindHandlerByType ld handlerType =
          (p.1, if p.2.status = .Constructed then p.2.inst else none, none)) ∧
    ((∀ p ∈ ld.entries, p.2.declaredType ≠ handlerType) →
      FindHandlerByType ld handlerType = ("", none, some ErrHandlerTypeNotFound)) ∧
    ((∃ p ∈ ld.entries, p.2.declaredType = handlerType) →
      (∀ p ∈ ld.entries, p.2.declaredType = handlerType → p.2.status ≠ .Constructed) →
      ∃ p ∈ ld.entries, p.2.declaredType = handlerType ∧
        FindHandlerByType ld handlerType = (p.1, none, none)) ∧
    (∀ (T : Type)
      (gh : String → World O S H → Outcome (World O S H) (Option (S ⊕ H) × Option GoError))
      (v : String × Option (S ⊕ H) × Option GoError → Option T × Option GoError)
      (w : World O S H),
      runBody gh (.findHandlerByType handlerType fun r => .ret (v r)) w =
        .ret w (v (FindHandlerByType w.rest handlerType))) ∧
    ((∀ p ∈ ld.entries, p.2.status = .Constructed) →
      (FindHandlerByType ld handlerType).2.2 = none →
      ∃ p ∈ ld.entries, p.2.declaredType = handlerType ∧
        FindHandlerByType ld handlerType = (p.1, p.2.inst, none) ∧
        ((∀ q ∈ ld.entries, q.1 ≠ "") → p.1 ≠ "")) ∧
    (∀ (isStorageType : String → Bool) (quote : String → String) (fuel : Nat)
      (name : String) (w w' : World O S H) (i : Option (S ⊕ H)),
      (w.rest.entry name).status = .Declared →
      GetHandler isStorageType quote fuel name w = .ret w' (i, none) →
      (w'.rest.entry name).status = .Constructed ∧ (w'.rest.entry name).inst = i) := by
  have hcache : ∀ (isStorageType : String → Bool) (quote : String → String) (fuel : Nat)
      (name : String) (w w' : World O S H) (i : Option (S ⊕ H)),
      (w.rest.entry name).status = .Declared →
      GetHandler isStorageType quote fuel name w = .ret w' (i, none) →
      (w'.rest.entry name).status = .Constructed ∧ (w'.rest.entry name).inst = i :=
    fun isStorageType quote fuel name w w' i hst h =>
      GetHandler_caches isStorageType quote fuel name w w' i hst h
  cases hf : ld.entries.find? (fun p => decide (p.2.declaredType = handlerType)) with
  | none =>
    obtain ⟨hres, hall⟩ := FindHandlerByType_none ld handlerType hf
    refine ⟨?_, fun _ => hres, ?_, fun T gh v w => rfl, ?_, hcache⟩
    · rintro ⟨p, hp, ht⟩
      exact absurd ht (hall p hp)
    · rintro ⟨p, hp, ht⟩
      exact absurd ht (hall p hp)
    · intro _ herr
      rw [hres] at herr
      cases herr
  | some p =>
    obtain ⟨hres, hp, ht⟩ := FindHandlerByType_found ld handlerType p hf
    refine ⟨fun _ => ⟨p, hp, ht, hres⟩, ?_, ?_, fun T gh v w => rfl, ?_, hcache⟩
    · intro hall
      exact absurd ht (hall p hp)
    · intro _ hnot
      refine ⟨p, hp, ht, ?_⟩
      rw [hres, if_neg (hnot p hp ht)]
    · intro hall _
      refine ⟨p, hp, ht, ?_, fun hne => hne p hp⟩
      rw [hres, if_pos (hall p hp)]

/-- Witness of the amended C10 on the sample configurations: while `"/find/"`
is constructed, its constructor finds the `"ui"` handler `"/ui/"`, declared
and not yet constructed, with a nil handler and a nil error; no instance has
the type `"ftp"`; and the construction of `"/idx/"`, which succeeds, caches
the handler its constructor returned. -/
theorem findHandlerByType_spec_witness :
    (∃ p ∈ Sample.acyclic.rest.entries, p.2.declaredType = "ui" ∧
      FindHandlerByType Sample.acyclic.rest "ui" = (p.1, none, none)) ∧
    FindHandlerByType Sample.acyclic.rest "ui" = ("/ui/", none, none) ∧
    FindHandlerByType Sample.acyclic.rest "ftp" = ("", none, some ErrHandlerTypeNotFound) ∧
    (∀ w', GetHandler Sample.isStorageType Sample.quote 5 "/idx/" Sample.acyclic =
        .ret w' (some (.inr "handler at /idx/"), none) →
      (w'.rest.entry "/idx/").status = .Constructed ∧
        (w'.rest.entry "/idx/").inst = some (.inr "handler at /idx/")) :=
  ⟨(findHandlerByType_spec Sample.acyclic.rest "ui").2.2.1
      ⟨("/ui/", Sample.declared "ui" ""), by simp [Sample.acyclic, Sample.loaderWorld], rfl⟩
      (by
        intro p hp _
        simp only [Sample.acyclic, Sample.loaderWorld, List.mem_cons, List.mem_singleton,
          List.not_mem_nil, or_false] at hp
        rcases hp with rfl | rfl | rfl | rfl <;> simp [Sample.declared]),
    rfl,
    (findHandlerByType_spec Sample.acyclic.rest "ftp").2.1
      (by
        intro p hp
        simp only [Sample.acyclic, Sample.loaderWorld, List.mem_cons, List.mem_singleton,
          List.not_mem_nil, or_false] at hp
        rcases hp with rfl | rfl | rfl | rfl <;> simp [Sample.declared]),
    fun w' h =>
      (findHandlerByType_spec Sample.acyclic.rest "ui").2.2.2.2.2 Sample.isStorageType
        Sample.quote 5 "/idx/" Sample.acyclic w' _ rfl h⟩

/-- C11: a rejected registration is atomic.  When
`RegisterStorageConstructor(typ, ctor)` panics, the state the panic leaves is
the state the call was made in: both tables are exactly as they were, `typ`
keeps the binding it had and `ctor` is not stored; the panic value is the
message of the duplicate registration.  `RegisterHandlerConstructor`
likewise. -/
theorem rejected_registration_atomic (typS typH : String) (cs : Option SC) (ch : Option HC)
    (s s' t t' : Registry SC HC X) (v v' : String)
    (hS : RegisterStorageConstructor typS cs s = .panic s' v)
    (hH : RegisterHandlerConstructor typH ch t = .panic t' v') :
    (s'.storageConstructors = s.storageConstructors ∧
      s'.handlerConstructors = s.handlerConstructors ∧
      (∃ old, s.storageConstructors.get? typS = some old ∧
        s'.storageConstructors.get? typS = some old) ∧
      v = "blobserver: StorageConstructor already registered for type: " ++ typS) ∧
    (t'.storageConstructors = t.storageConstructors ∧
      t'.handlerConstructors = t.handlerConstructors ∧
      (∃ old, t.handlerConstructors.get? typH = some old ∧
        t'.handlerConstructors.get? typH = some old) ∧
      v' = "blobserver: HandlerConstrutor already registered for type: " ++ typH) := by
  obtain ⟨_, hs, ⟨oldS, hoS⟩, hv⟩ := RegisterStorageConstructor_panic typS cs s s' v hS
  obtain ⟨_, ht, ⟨oldH, hoH⟩, hv'⟩ := RegisterHandlerConstructor_panic typH ch t t' v' hH
  subst hs ht
  exact ⟨⟨rfl, rfl, ⟨oldS, hoS, hoS⟩, hv⟩, ⟨rfl, rfl, ⟨oldH, hoH, hoH⟩, hv'⟩⟩

/-- Witness of C11 on the sample state: `"disk"` is offered constructor 7 as a
storage type and `"ui"` constructor 7 as a handler type; both calls panic,
leaving the sample state, in which `"disk"` and `"ui"` have a binding. -/
theorem rejected_registration_atomic_witness :
    (RegisterStorageConstructor "disk" (some 7) Sample.reg =
      .panic Sample.reg "blobserver: StorageConstructor already registered for type: disk" ∧
     RegisterHandlerConstructor "ui" (some 7) Sample.reg =
      .panic Sample.reg "blobserver: HandlerConstrutor already registered for type: ui") ∧
    (∃ old, Sample.reg.storageConstructors.get? "disk" = some old ∧
      Sample.reg.storageConstructors.get? "disk" = some old) ∧
    (∃ old, Sample.reg.handlerConstructors.get? "ui" = some old ∧
      Sample.reg.handlerConstructors.get? "ui" = some old) :=
  have h := rejected_registration_atomic "disk" "ui" (some 7) (some 7) Sample.reg Sample.reg
    Sample.reg Sample.reg
    "blobserver: StorageConstructor already registered for type: disk"
    "blobserver: HandlerConstrutor already registered for type: ui" rfl rfl
  ⟨⟨rfl, rfl⟩, h.1.2.2.1, h.2.2.2.1⟩

/-- C12: a call that starts with `mapLock` free leaves it free on every exit
path.  Each Register function ends, by its return or by its panic, in a state
whose mutex is free; after the panic of a duplicate registration the mutex is
free, so that a later call gets past `Lock`.  Each Create function returns the
not-found error with the mutex free, and hands over to the constructor with the
mutex free; it then ends with the mutex free whenever the constructors, which
cannot name the mutex, leave it free when they find it free. -/
theorem mutex_free_on_every_exit
    (storageCode : SC → L → O → Registry SC HC X →
      Outcome (Registry SC HC X) (Option S × Option GoError))
    (handlerCode : HC → L → O → Registry SC HC X →
      Outcome (Registry SC HC X) (Option H × Option GoError))
    (quote : String → String) (typ : String) (cs : Option SC) (ch : Option HC)
    (loader : L) (config : O) (s : Registry SC HC X) (h : s.mapLock = false) :
    (∃ s', (RegisterStorageConstructor typ cs s).resume? = some s' ∧ s'.mapLock = false) ∧
    (∃ s', (RegisterHandlerConstructor typ ch s).resume? = some s' ∧ s'.mapLock = false) ∧
    (typ ∈ s.storageConstructors.keys →
      ∃ s' v, RegisterStorageConstructor typ cs s = .panic s' v ∧ s'.mapLock = false ∧
        (mapLock_Lock s').Returns ∧
        (∀ (typ' : String) (c : Option SC), ¬ (RegisterStorageConstructor typ' c s').Blocks) ∧
        (∀ (typ' : String) (c : Option HC), ¬ (RegisterHandlerConstructor typ' c s').Blocks)) ∧
    (typ ∈ s.handlerConstructors.keys →
      ∃ s' v, RegisterHandlerConstructor typ ch s = .panic s' v ∧ s'.mapLock = false ∧
        (mapLock_Lock s').Returns ∧
        (∀ (typ' : String) (c : Option SC), ¬ (RegisterStorageConstructor typ' c s').Blocks) ∧
        (∀ (typ' : String) (c : Option HC), ¬ (RegisterHandlerConstructor typ' c s').Blocks)) ∧
    (typ ∉ s.storageConstructors.keys →
      ∃ s' r, CreateStorage storageCode quote typ loader config s = .ret s' r ∧
        s'.mapLock = false) ∧
    (typ ∉ s.handlerConstructors.keys →
      ∃ s' r, CreateHandler handlerCode quote typ loader config s = .ret s' r ∧
        s'.mapLock = false) ∧
    (∀ ctor, s.storageConstructors.get? typ = some ctor →
      ∃ s2, s2.mapLock = false ∧
        CreateStorage storageCode quote typ loader config s =
          callFunc storageCode ctor loader config s2 ∧
        ((∀ c l cfg (u u' : Registry SC HC X), (storageCode c l cfg u).resume? = some u' →
            u.mapLock = false → u'.mapLock = false) →
          ∀ s', (CreateStorage storageCode quote typ loader config s).resume? = some s' →
            s'.mapLock = false)) ∧
    (∀ ctor, s.handlerConstructors.get? typ = some ctor →
      ∃ s2, s2.mapLock = false ∧
        CreateHandler handlerCode quote typ loader config s =
          callFunc handlerCode ctor loader config s2 ∧
        ((∀ c l cfg (u u' : Registry SC HC X), (handlerCode c l cfg u).resume? = some u' →
            u.mapLock = false → u'.mapLock = false) →
          ∀ s', (CreateHandler handlerCode quote typ loader config s).resume? = some s' →
            s'.mapLock = false)) := by
  have hlock : (mapLock_Lock s).Returns := by simp [mapLock_Lock, h, Outcome.Returns]
  have hnbS : ∀ (typ' : String) (c : Option SC),
      ¬ (RegisterStorageConstructor typ' c s).Blocks := by
    intro typ' c
    rw [RegisterStorageConstructor_free typ' c s h]
    cases GoMap.get? s.storageConstructors typ' <;> simp [Outcome.Blocks]
  have hnbH : ∀ (typ' : String) (c : Option HC),
      ¬ (RegisterHandlerConstructor typ' c s).Blocks := by
    intro typ' c
    rw [RegisterHandlerConstructor_free typ' c s h]
    cases GoMap.get? s.handlerConstructors typ' <;> simp [Outcome.Blocks]
  refine ⟨?_, ?_, ?_, ?_, ?_, ?_, ?_, ?_⟩
  · rw [RegisterStorageConstructor_free typ cs s h]
    cases GoMap.get? s.storageConstructors typ with
    | none => exact ⟨_, rfl, h⟩
    | some old => exact ⟨_, rfl, h⟩
  · rw [RegisterHandlerConstructor_free typ ch s h]
    cases GoMap.get? s.handlerConstructors typ with
    | none => exact ⟨_, rfl, h⟩
    | some old => exact ⟨_, rfl, h⟩
  · intro hk
    obtain ⟨old, ho⟩ := GoMap.exists_get?_of_mem_keys hk
    refine ⟨s, "blobserver: StorageConstructor already registered for type: " ++ typ,
      ?_, h, hlock, hnbS, hnbH⟩
    rw [RegisterStorageConstructor_free typ cs s h, ho]
  · intro hk
    obtain ⟨old, ho⟩ := GoMap.exists_get?_of_mem_keys hk
    refine ⟨s, "blobserver: HandlerConstrutor already registered for type: " ++ typ,
      ?_, h, hlock, hnbS, hnbH⟩
    rw [RegisterHandlerConstructor_free typ ch s h, ho]
  · intro hk
    rw [← GoMap.get?_eq_none_iff] at hk
    exact ⟨s, _, by rw [CreateStorage_free storageCode quote typ loader config s h, hk], h⟩
  · intro hk
    rw [← GoMap.get?_eq_none_iff] at hk
    exact ⟨s, _, by rw [CreateHandler_free handlerCode quote typ loader config s h, hk], h⟩
  · intro ctor hc
    have hcreate : CreateStorage storageCode quote typ loader config s =
        callFunc storageCode ctor loader config s := by
      rw [CreateStorage_free storageCode quote typ loader config s h, hc]
    refine ⟨s, h, hcreate, fun hcode s' hs' => ?_⟩
    rw [hcreate] at hs'
    cases ctor with
    | none =>
      simp only [callFunc, Outcome.resume?, Option.some.injEq] at hs'
      rw [← hs']
      exact h
    | some c => exact hcode c loader config s s' hs' h
  · intro ctor hc
    have hcreate : CreateHandler handlerCode quote typ loader config s =
        callFunc handlerCode ctor loader config s := by
      rw [CreateHandler_free handlerCode quote typ loader config s h, hc]
    refine ⟨s, h, hcreate, fun hcode s' hs' => ?_⟩
    rw [hcreate] at hs'
    cases ctor with
    | none =>
      simp only [callFunc, Outcome.resume?, Option.some.injEq] at hs'
      rw [← hs']
      exact h
    | some c => exact hcode c loader config s s' hs' h

/-- Witness of C12 on the sample state: the duplicate registration of `"disk"`
panics and leaves the mutex free, and a registration made after it does not
block. -/
theorem mutex_free_on_every_exit_witness :
    ∃ s' v, RegisterStorageConstructor "disk" (some 7) Sample.reg = .panic s' v ∧
      s'.mapLock = false ∧ (mapLock_Lock s').Returns ∧
      (∀ (typ' : String) (c : Option Nat), ¬ (RegisterStorageConstructor typ' c s').Blocks) ∧
      (∀ (typ' : String) (c : Option Nat), ¬ (RegisterHandlerConstructor typ' c s').Blocks) :=
  (mutex_free_on_every_exit Sample.storageCode Sample.handlerCode Sample.quote "disk"
    (some 7) (some 7) "loader" "cfg" Sample.reg rfl).2.2.1
    (by simp [Sample.reg, GoMap.keys])

/-- C13: registration is decided by key membership alone.  With the mutex
free, every type name that is not yet a key, the empty string included, is
accepted with every constructor value, the nil function included: the call
returns and the name is a key bound to that value.  A second registration of
the name then panics, and `CreateStorage` on it is the call of the bound value
rather than the not-found return; for the nil function that call is the
run-time panic of calling nil.  `RegisterHandlerConstructor` and
`CreateHandler` likewise. -/
theorem registration_by_key_only (typS typH : String) (cs : Option SC) (ch : Option HC)
    (s t : Registry SC HC X) (hs : s.mapLock = false) (ht : t.mapLock = false)
    (hS : typS ∉ s.storageConstructors.keys) (hH : typH ∉ t.handlerConstructors.keys) :
    (∃ s1, RegisterStorageConstructor typS cs s = .ret s1 () ∧
      typS ∈ s1.storageConstructors.keys ∧ s1.storageConstructors.get? typS = some cs ∧
      (∀ c, (RegisterStorageConstructor typS c s1).Panics) ∧
      (∀ (storageCode : SC → L → O → Registry SC HC X →
            Outcome (Registry SC HC X) (Option S × Option GoError))
          (quote : String → String) (loader : L) (config : O),
        CreateStorage storageCode quote typS loader config s1 =
          callFunc storageCode cs loader config s1 ∧
        (cs = none → CreateStorage storageCode quote typS loader config s1 =
          .panic s1 "runtime error: invalid memory address or nil pointer dereference"))) ∧
    (∃ t1, RegisterHandlerConstructor typH ch t = .ret t1 () ∧
      typH ∈ t1.handlerConstructors.keys ∧ t1.handlerConstructors.get? typH = some ch ∧
      (∀ c, (RegisterHandlerConstructor typH c t1).Panics) ∧
      (∀ (handlerCode : HC → L → O → Registry SC HC X →
            Outcome (Registry SC HC X) (Option H × Option GoError))
          (quote : String → String) (loader : L) (config : O),
        CreateHandler handlerCode quote typH loader config t1 =
          callFunc handlerCode ch loader config t1 ∧
        (ch = none → CreateHandler handlerCode quote typH loader config t1 =
          .panic t1 "runtime error: invalid memory address or nil pointer dereference"))) := by
  rw [← GoMap.get?_eq_none_iff] at hS hH
  constructor
  · have hreg := RegisterStorageConstructor_free typS cs s hs
    simp only [hS] at hreg
    have hb : GoMap.get? (GoMap.set s.storageConstructors typS cs) typS = some cs :=
      GoMap.get?_set_self _ _ _
    refine ⟨_, hreg, GoMap.mem_keys_of_get? hb, hb, fun c => ?_, fun code quote loader config => ?_⟩
    · rw [RegisterStorageConstructor_free typS c
        { s with storageConstructors := s.storageConstructors.set typS cs } hs]
      simp only [hb, Outcome.Panics]
    · have hcreate := CreateStorage_free code quote typS loader config
        { s with storageConstructors := s.storageConstructors.set typS cs } hs
      simp only [hb] at hcreate
      refine ⟨hcreate, fun hnil => ?_⟩
      rw [hcreate, hnil]
      rfl
  · have hreg := RegisterHandlerConstructor_free typH ch t ht
    simp only [hH] at hreg
    have hb : GoMap.get? (GoMap.set t.handlerConstructors typH ch) typH = some ch :=
      GoMap.get?_set_self _ _ _
    refine ⟨_, hreg, GoMap.mem_keys_of_get? hb, hb, fun c => ?_, fun code quote loader config => ?_⟩
    · rw [RegisterHandlerConstructor_free typH c
        { t with handlerConstructors := t.handlerConstructors.set typH ch } ht]
      simp only [hb, Outcome.Panics]
    · have hcreate := CreateHandler_free code quote typH loader config
        { t with handlerConstructors := t.handlerConstructors.set typH ch } ht
      simp only [hb] at hcreate
      refine ⟨hcreate, fun hnil => ?_⟩
      rw [hcreate, hnil]
      rfl

/-- Witness of C13: the empty type name is registered with the nil function
in the empty registry; a second registration panics and `CreateStorage` on it
panics in the call of nil. -/
theorem registration_by_key_only_witness :
    ∃ s1, RegisterStorageConstructor "" none Sample.empty = .ret s1 () ∧
      "" ∈ s1.storageConstructors.keys ∧ s1.storageConstructors.get? "" = some none ∧
      (∀ c, (RegisterStorageConstructor "" c s1).Panics) ∧
      (∀ (storageCode : Nat → String → String → Sample.Reg →
            Outcome Sample.Reg (Option String × Option GoError))
          (quote : String → String) (loader : String) (config : String),
        CreateStorage storageCode quote "" loader config s1 =
          callFunc storageCode none loader config s1 ∧
        ((none : Option Nat) = none → CreateStorage storageCode quote "" loader config s1 =
          .panic s1 "runtime error: invalid memory address or nil pointer dereference")) :=
  (registration_by_key_only (H := String) "" "" none none Sample.empty Sample.empty rfl rfl
    (by simp [Sample.empty, GoMap.keys]) (by simp [Sample.empty, GoMap.keys])).1

end Claims

end Blobserver
